/-
Verification of the state/update core of the Watts SmartHome integration.

This file shallowly embeds the relevant parts of the Python sources into
Lean 4 and proves properties about them:

  custom_components/watts_smarthome/formatting.py  (value codec)
  custom_components/watts_smarthome/const.py       (constants)
  custom_components/watts_smarthome/models.py      (domain model, parsers,
                                                    write-request builders)
  custom_components/watts_smarthome/api.py         (HTTP retry logic)
  custom_components/watts_smarthome/select.py      (mode-select write path)

Modelling conventions:
  - Python floats are modelled as exact rationals; Python round (including
    round-half-to-even tie breaking) is modelled exactly over the rationals.
    Binary floating-point representation error is outside the model; every
    verdict below sits far from a rounding boundary, so the rational model
    and the float implementation agree on all inputs used here.
  - Python dynamic values are the inductive PyVal (None, bool, int, float,
    str, list, dict).  Dicts are insertion-ordered association lists; item
    assignment replaces the value in place for an existing key and appends
    for a new key, matching dict semantics.
  - A Python function that can raise is embedded as a function into Option,
    with none meaning an exception escapes; a function that cannot raise is
    embedded as a total function.
  - float(str) is modelled for the decimal-literal subset of the Python
    float grammar (optional surrounding whitespace, optional sign, digits
    with at most one decimal point); inf, nan, exponents and underscore
    separators are outside the modelled input range, as are non-decimal
    floats in str()/float rendering.
-/
import Mathlib

namespace Watts

/-! ## Characters, digit strings, and the decimal-literal parser -/

/-- Numeric value of a decimal digit character (48 is the code of the zero
digit). -/
def digitVal (c : Char) : ℕ := c.toNat - 48

/-- Character for a decimal digit. -/
def digitChar (d : ℕ) : Char := Char.ofNat (48 + d)

/-- Whitespace characters stripped by Python str.strip() and float()
(ASCII subset). -/
def isPySpace (c : Char) : Bool :=
  (c = ' ') || (c = '\t') || (c = '\n') || (c = '\r') || (c.toNat = 11) || (c.toNat = 12)

/-- Drop leading and trailing whitespace from a character list. -/
def trimChars (l : List Char) : List Char :=
  ((l.dropWhile isPySpace).reverse.dropWhile isPySpace).reverse

/-- Little-endian decimal digits of a natural number, with explicit fuel so
that the recursion is structural and kernel-reducible. -/
def natDigitsRevAux : ℕ → ℕ → List ℕ
  | 0, _ => []
  | fuel + 1, n => if n = 0 then [] else n % 10 :: natDigitsRevAux fuel (n / 10)

/-- Little-endian decimal digits of a natural number (empty for 0). -/
def natDigitsRev (n : ℕ) : List ℕ := natDigitsRevAux n n

/-- Decimal rendering of a natural number, as produced by Python str(). -/
def pyNatStr (n : ℕ) : String :=
  if n = 0 then "0" else String.mk ((natDigitsRev n).reverse.map digitChar)

/-- Decimal rendering of an integer, as produced by Python str(). -/
def pyIntStr (n : ℤ) : String :=
  if n < 0 then "-" ++ pyNatStr n.natAbs else pyNatStr n.natAbs

/-- Fractional-part state of the decimal-literal parser: accumulated
mantissa, number of fractional digits so far, and whether any digit has been
seen.  Returns (mantissa, fractional-digit count). -/
def parseDecFrac : ℤ → ℕ → Bool → List Char → Option (ℤ × ℕ)
  | acc, e, seen, [] => if seen then some (acc, e) else none
  | acc, e, seen, c :: rest =>
      if c.isDigit then parseDecFrac (10 * acc + (digitVal c : ℤ)) (e + 1) true rest
      else none

/-- Integer-part state of the decimal-literal parser; switches to the
fractional state at the first decimal point. -/
def parseDecInt : ℤ → Bool → List Char → Option (ℤ × ℕ)
  | acc, seen, [] => if seen then some (acc, 0) else none
  | acc, seen, c :: rest =>
      if c.isDigit then parseDecInt (10 * acc + (digitVal c : ℤ)) true rest
      else if c = '.' then parseDecFrac acc 0 seen rest
      else none

/-- Sign handling of the decimal-literal parser. -/
def parseDecSigned : List Char → Option (ℤ × ℕ)
  | [] => parseDecInt 0 false []
  | c :: rest =>
      if c = '-' then (parseDecInt 0 false rest).map (fun p => (-p.1, p.2))
      else if c = '+' then parseDecInt 0 false rest
      else parseDecInt 0 false (c :: rest)

/-- Models Python float(s) on the decimal-literal subset of its grammar:
the parsed value is mantissa over ten to the number of fractional digits.
Malformed input gives none (a ValueError in Python). -/
def parseFloat (s : String) : Option ℚ :=
  (parseDecSigned (trimChars s.data)).map (fun p => (p.1 : ℚ) / (10 : ℚ) ^ p.2)

/-! ## Python rounding over exact rationals -/

/-- Models Python round(q) (round half to even) over exact rationals. -/
def pyRound (q : ℚ) : ℤ :=
  if q - ⌊q⌋ < 1 / 2 then ⌊q⌋
  else if 1 / 2 < q - ⌊q⌋ then ⌊q⌋ + 1
  else if Even ⌊q⌋ then ⌊q⌋ else ⌊q⌋ + 1

/-- Models Python round(q, 1): round half to even at one decimal place. -/
def pyRound1 (q : ℚ) : ℚ := (pyRound (q * 10) : ℚ) / 10

/-- Models Python int(q) truncation toward zero for a float argument. -/
def pyIntTrunc (q : ℚ) : ℤ := if 0 ≤ q then ⌊q⌋ else -⌊-q⌋

/-! ## Python dynamic values -/

/-- A Python value as it occurs in decoded JSON payloads and scalar
arguments: None, bool, int, float (exact rational), str, list, dict. -/
inductive PyVal where
  | none : PyVal
  | pbool : Bool → PyVal
  | int : ℤ → PyVal
  | float : ℚ → PyVal
  | str : String → PyVal
  | list : List PyVal → PyVal
  | dict : List (String × PyVal) → PyVal

/-- Association-list lookup with first-match semantics, modelling dict
subscript/get on string keys. -/
def lookupA {α : Type} (l : List (String × α)) (k : String) : Option α :=
  (l.find? (fun p => p.1 == k)).map (fun p => p.2)

/-- Does the association list have the key (dict membership test). -/
def dictHasA {α : Type} (l : List (String × α)) (k : String) : Bool :=
  l.any (fun p => p.1 == k)

/-- Dict item assignment: replace the value in place for an existing key,
append for a new key. -/
def dictSetA {α : Type} (l : List (String × α)) (k : String) (v : α) : List (String × α) :=
  if dictHasA l k then l.map (fun p => if p.1 == k then (k, v) else p) else l ++ [(k, v)]

/-- Models d.get(k, default) on a dict. -/
def rawGetD (d : List (String × PyVal)) (k : String) (default : PyVal) : PyVal :=
  (lookupA d k).getD default

/-- Models d.get(k) on a dict (default None). -/
def rawGet (d : List (String × PyVal)) (k : String) : PyVal :=
  rawGetD d k PyVal.none

/-- Python truthiness of a value. -/
def pyTruthy : PyVal → Bool
  | PyVal.none => false
  | PyVal.pbool b => b
  | PyVal.int n => n != 0
  | PyVal.float q => q != 0
  | PyVal.str s => s != ""
  | PyVal.list l => !l.isEmpty
  | PyVal.dict d => !d.isEmpty

/-- Models the expression (v or dict()) used by the parsers: keep a truthy
value, replace a falsy one with the empty dict. -/
def pyOrEmptyDict (v : PyVal) : PyVal :=
  if pyTruthy v then v else PyVal.dict []

/-- The entries of a value that must be a dict; none models the
AttributeError raised by attribute access on a non-dict. -/
def asDict? : PyVal → Option (List (String × PyVal))
  | PyVal.dict d => some d
  | _ => Option.none

/-- The items produced by iterating a value in a for loop; none models the
TypeError raised for a non-iterable.  Iterating a dict yields its keys and
iterating a str yields its one-character strings, as in Python. -/
def pyIter? : PyVal → Option (List PyVal)
  | PyVal.list l => some l
  | PyVal.dict d => some (d.map (fun p => PyVal.str p.1))
  | PyVal.str s => some (s.data.map (fun c => PyVal.str (String.mk [c])))
  | _ => Option.none

/-- Left-pad a rendered number with zero digits to the requested width. -/
def zeroPad (s : String) (width : ℕ) : String :=
  if s.length < width then String.mk (List.replicate (width - s.length) '0') ++ s else s

/-- Decimal rendering of a float value, modelling Python str() on floats
whose value is an exact decimal; other rationals are outside the modelled
input range and get a placeholder. -/
def pyFloatStr (q : ℚ) : String :=
  match (List.range 65).find? (fun e => (q * (10 : ℚ) ^ e).den == 1) with
  | some e =>
      if e = 0 then
        (if (q * (10 : ℚ) ^ e).num < 0 then "-" else "")
          ++ pyNatStr (q * (10 : ℚ) ^ e).num.natAbs ++ ".0"
      else
        (if (q * (10 : ℚ) ^ e).num < 0 then "-" else "")
          ++ pyNatStr ((q * (10 : ℚ) ^ e).num.natAbs / 10 ^ e) ++ "."
          ++ zeroPad (pyNatStr ((q * (10 : ℚ) ^ e).num.natAbs % 10 ^ e)) e
  | Option.none => "<float>"

/-- Models Python str(v).  Containers get a placeholder rendering; no code
modelled here converts a container to a string. -/
def pyValStr : PyVal → String
  | PyVal.none => "None"
  | PyVal.pbool true => "True"
  | PyVal.pbool false => "False"
  | PyVal.int n => pyIntStr n
  | PyVal.float q => pyFloatStr q
  | PyVal.str s => s
  | PyVal.list _ => "<container>"
  | PyVal.dict _ => "<container>"

/-- Models str.strip(). -/
def pyStrip (s : String) : String := String.mk (trimChars s.data)

/-! ## formatting.py: value codec -/

/-- Fixed-point factor for Watts temperature encodings (formatting.py). -/
def WATTS_TEMPERATURE_FACTOR : ℚ := 10

/-- Fahrenheit validity threshold for raw readings (formatting.py). -/
def WATTS_INVALID_FAHRENHEIT_THRESHOLD : ℚ := 99

/-- MODE_LABELS from formatting.py, in insertion order. -/
def MODE_LABELS : List (String × String) :=
  [("0", "Comfort"), ("1", "Off"), ("2", "Frost Protection"), ("3", "Eco"),
   ("4", "Boost"), ("8", "Auto Comfort"), ("11", "Auto Eco"), ("12", "On"),
   ("13", "Auto"), ("14", "Disabled")]

/-- Is the value None or the empty string (the check value in (None, "")
used by formatting.py). -/
def isNoneOrEmptyStr : PyVal → Bool
  | PyVal.none => true
  | PyVal.str s => s == ""
  | _ => false

/-- Embeds formatting.to_float (source name with a leading underscore):
convert input to float when possible, None on failure. -/
def to_float : PyVal → Option ℚ
  | PyVal.none => Option.none
  | PyVal.str s => if s = "" then Option.none else parseFloat s
  | PyVal.pbool b => some (if b then 1 else 0)
  | PyVal.int n => some (n : ℚ)
  | PyVal.float q => some q
  | PyVal.list _ => Option.none
  | PyVal.dict _ => Option.none

/-- Embeds formatting.decode_temperature: decode a raw temperature value
returned by the Watts API. -/
def decode_temperature (value : PyVal) : Option ℚ :=
  match to_float value with
  | Option.none => Option.none
  | some raw_value =>
      if WATTS_INVALID_FAHRENHEIT_THRESHOLD < raw_value / WATTS_TEMPERATURE_FACTOR then
        Option.none
      else
        some (pyRound1 ((raw_value / WATTS_TEMPERATURE_FACTOR - 32) / 1.8))

/-- Embeds formatting.decode_setpoint: decode a raw setpoint value returned
by the Watts API (textually the same body as decode_temperature). -/
def decode_setpoint (value : PyVal) : Option ℚ :=
  match to_float value with
  | Option.none => Option.none
  | some raw_value =>
      if WATTS_INVALID_FAHRENHEIT_THRESHOLD < raw_value / WATTS_TEMPERATURE_FACTOR then
        Option.none
      else
        some (pyRound1 ((raw_value / WATTS_TEMPERATURE_FACTOR - 32) / 1.8))

/-- Embeds formatting.encode_setpoint: encode a setpoint back to the Watts
raw string format. -/
def encode_setpoint (value : ℚ) : String :=
  pyIntStr (pyRound ((value * 1.8 + 32) * WATTS_TEMPERATURE_FACTOR))

/-- Embeds formatting.format_mode: human label for gv_mode/nv_mode codes. -/
def format_mode (value : PyVal) : Option String :=
  if isNoneOrEmptyStr value then Option.none
  else some ((lookupA MODE_LABELS (pyValStr value)).getD ("Mode " ++ pyValStr value))

/-- Embeds formatting.mode_code_from_label: API code for a select label,
scanning MODE_LABELS in insertion order. -/
def mode_code_from_label (label : String) : Option String :=
  (MODE_LABELS.find? (fun p => p.2 == label)).map (fun p => p.1)

/-! ## const.py: constants used by the domain model -/

def MODE_COMFORT : String := "comfort"

def MODE_OFF : String := "off"

def MODE_ANTI_FROST : String := "anti_frost"

def MODE_ECO : String := "eco"

def MODE_BOOST : String := "boost"

def MODE_PROGRAM_ON : String := "program_on"

def MODE_MANUAL : String := "manual"

def MODE_UNKNOWN : String := "unknown"

/-- MODE_CODE_TO_OPTION from const.py, in insertion order. -/
def MODE_CODE_TO_OPTION : List (String × String) :=
  [("0", MODE_COMFORT), ("1", MODE_OFF), ("2", MODE_ANTI_FROST), ("3", MODE_ECO),
   ("4", MODE_BOOST), ("8", MODE_PROGRAM_ON), ("11", MODE_MANUAL)]

/-- MODE_OPTION_TO_CODE from const.py: the inverted dict comprehension. -/
def MODE_OPTION_TO_CODE : List (String × String) :=
  MODE_CODE_TO_OPTION.map (fun p => (p.2, p.1))

def SETPOINT_COMFORT : String := "consigne_confort"

def SETPOINT_ECO : String := "consigne_eco"

def SETPOINT_ANTI_FROST : String := "consigne_hg"

def SETPOINT_BOOST : String := "consigne_boost"

def SETPOINT_MANUAL : String := "consigne_manuel"

def BOOST_TIMER : String := "time_boost"

/-- SETPOINT_KEYS from const.py. -/
def SETPOINT_KEYS : List String :=
  [SETPOINT_COMFORT, SETPOINT_ECO, SETPOINT_ANTI_FROST, SETPOINT_BOOST]

/-- SETPOINT_BY_MODE from const.py. -/
def SETPOINT_BY_MODE : List (String × String) :=
  [(MODE_COMFORT, SETPOINT_COMFORT), (MODE_ECO, SETPOINT_ECO),
   (MODE_ANTI_FROST, SETPOINT_ANTI_FROST), (MODE_BOOST, SETPOINT_BOOST)]

/-- Post-write fast polling interval in seconds (const.py line 26). -/
def POST_WRITE_FAST_POLL_INTERVAL_SECONDS : ℚ := 15

/-- Post-write fast polling window duration in seconds (const.py line 27). -/
def POST_WRITE_FAST_POLL_DURATION_SECONDS : ℚ := 5 * 60

/-- Modelled from the spec: const.py in this source snapshot does not define
RAW_TEMPERATURE_FACTOR although models.py imports it; design note section 9
of the spec identifies the dataclass parser variant as using a deci-scale
raw encoding (RAW_TEMPERATURE_DECI_SCALE = 10.0 in const.py), which fixes
the factor at 10. -/
def RAW_TEMPERATURE_FACTOR : ℚ := 10

/-! ## models.py: scalar helpers -/

/-- Embeds models.as_str (source name with a leading underscore): value as
trimmed string, empty for None. -/
def as_str (value : PyVal) : String :=
  match value with
  | PyVal.none => ""
  | v => pyStrip (pyValStr v)

/-- Embeds models.as_int (source name with a leading underscore): value as
int when possible, via int(float(text)) truncation. -/
def as_int (value : PyVal) : Option ℤ :=
  if as_str value = "" then Option.none
  else
    match parseFloat (as_str value) with
    | Option.none => Option.none
    | some q => some (pyIntTrunc q)

/-- Embeds models.celsius_to_raw: Celsius value to Watts raw temperature. -/
def celsius_to_raw (temperature : ℚ) : ℤ :=
  pyRound (temperature * RAW_TEMPERATURE_FACTOR)

/-! ## models.py: domain model structures -/

/-- A single device error from smarthome/get_errors (models.py
WattsDeviceError). -/
structure WattsDeviceError where
  code : String
  title : String
  message : String
deriving DecidableEq, Repr

/-- Smarthome summary from user/read (models.py WattsSmarthomeSummary). -/
structure WattsSmarthomeSummary where
  smarthome_id : String
  label : String
  address : String
  latitude : String
  longitude : String
  mac_address : String
  general_mode : String
  holiday_mode : String
  unit_mode : String
deriving DecidableEq, Repr

/-- User profile and smarthome list (models.py WattsUserProfile). -/
structure WattsUserProfile where
  user_id : String
  email : String
  lang_code : String
  cgu_id : String
  optin_stats : String
  smarthomes : List WattsSmarthomeSummary
deriving DecidableEq, Repr

/-- A user entry attached to a smarthome (models.py WattsUserRef). -/
structure WattsUserRef where
  user_id : String
  user_email : String
deriving DecidableEq, Repr

/-- Mode metadata entry from smarthome/read (models.py WattsModeInfo). -/
structure WattsModeInfo where
  smarthome_id : String
  mode_type_id : String
  bundle_id : String
  nvgv_mode_id : String
deriving DecidableEq, Repr

/-- Zone definition from smarthome/read (models.py WattsZone). -/
structure WattsZone where
  num_zone : String
  zone_label : String
  zone_type_label : String
  zone_type_icon : String
  zone_image_id : String
  device_ids : List String
deriving DecidableEq, Repr

/-- Device model normalized from smarthome/read and get_errors (models.py
WattsDevice). -/
structure WattsDevice where
  smarthome_id : String
  id : String
  id_device : String
  name : String
  zone_id : String
  zone_name : String
  bundle_id : String
  gv_mode : String
  nv_mode : String
  temperature_air_raw : Option ℤ
  temperature_floor_raw : Option ℤ
  heating_up : Bool
  error_code : ℤ
  min_set_point_raw : Option ℤ
  max_set_point_raw : Option ℤ
  time_boost_seconds : ℤ
  setpoints_raw : List (String × ℤ)
  errors : List WattsDeviceError
deriving DecidableEq, Repr

/-- Smarthome model from smarthome/read with merged errors (models.py
WattsSmarthome). -/
structure WattsSmarthome where
  smarthome_id : String
  label : String
  address : String
  latitude : String
  longitude : String
  mac_address : String
  general_mode : String
  holiday_mode : String
  unit_mode : String
  holiday_start : String
  holiday_end : String
  jet_lag : ℤ
  users : List WattsUserRef
  modes : List WattsModeInfo
  zones : List WattsZone
  devices : List WattsDevice
deriving DecidableEq, Repr

/-- Coordinator snapshot for all user and smarthome data (models.py
WattsState). -/
structure WattsState where
  user : WattsUserProfile
  smarthomes : List WattsSmarthome
deriving DecidableEq, Repr

/-- Write request describing one device update (models.py
WattsWriteRequest). -/
structure WattsWriteRequest where
  smarthome_id : String
  id_device : String
  query : List (String × String)
deriving DecidableEq, Repr

/-! ## models.py: device methods -/

/-- Embeds WattsDevice.current_mode: mode option string from the gv_mode
code. -/
def WattsDevice.current_mode (d : WattsDevice) : String :=
  match lookupA MODE_CODE_TO_OPTION d.gv_mode with
  | some mapped => mapped
  | Option.none => MODE_UNKNOWN ++ "_" ++ d.gv_mode

/-- Embeds WattsDevice.get_setpoint_raw: raw setpoint value as string. -/
def WattsDevice.get_setpoint_raw (d : WattsDevice) (key : String) : Option String :=
  (lookupA d.setpoints_raw key).map pyIntStr

/-- Embeds WattsDevice.base_query: a full query payload from the current
device state. -/
def WattsDevice.base_query (d : WattsDevice) : List (String × String) :=
  let query : List (String × String) :=
    [("id_device", d.id_device), ("gv_mode", d.gv_mode), ("nv_mode", d.nv_mode),
     (BOOST_TIMER, pyIntStr d.time_boost_seconds)]
  let query :=
    (SETPOINT_KEYS ++ [SETPOINT_MANUAL]).foldl
      (fun q setpoint_key =>
        match d.get_setpoint_raw setpoint_key with
        | some raw_value => dictSetA q setpoint_key raw_value
        | Option.none => q)
      query
  if dictHasA query SETPOINT_MANUAL then query
  else
    match lookupA SETPOINT_BY_MODE d.current_mode with
    | some fallback_key =>
        match d.get_setpoint_raw fallback_key with
        | some fallback_value => dictSetA query SETPOINT_MANUAL fallback_value
        | Option.none => query
    | Option.none => query

/-- Embeds WattsDevice.with_errors: a copy with updated errors. -/
def WattsDevice.with_errors (d : WattsDevice) (errors : List WattsDeviceError) : WattsDevice :=
  { d with errors := errors }

/-- Embeds WattsSmarthome.with_error_map: a copy with per-device errors
merged in. -/
def WattsSmarthome.with_error_map (sm : WattsSmarthome)
    (error_map : List (String × List WattsDeviceError)) : WattsSmarthome :=
  { sm with devices := sm.devices.map (fun d => d.with_errors ((lookupA error_map d.id_device).getD [])) }

/-! ## models.py: parsers -/

/-- One step of the smarthomes loop of parse_user_profile: a non-dict entry
raises, an entry with an empty smarthome_id is skipped. -/
def userSummaryStep (acc : List WattsSmarthomeSummary) (v : PyVal) :
    Option (List WattsSmarthomeSummary) := do
  let raw ← asDict? v
  let smarthome_id := as_str (rawGet raw "smarthome_id")
  if smarthome_id = "" then pure acc
  else
    pure (acc ++ [{ smarthome_id := smarthome_id,
                    label := as_str (rawGet raw "label"),
                    address := as_str (rawGet raw "address_position"),
                    latitude := as_str (rawGet raw "latitude"),
                    longitude := as_str (rawGet raw "longitude"),
                    mac_address := as_str (rawGet raw "mac_address"),
                    general_mode := as_str (rawGet raw "general_mode"),
                    holiday_mode := as_str (rawGet raw "holiday_mode"),
                    unit_mode := as_str (rawGet raw "param_c_f") }])

/-- Embeds models.parse_user_profile: parse the user/read response. -/
def parse_user_profile (payload : List (String × PyVal)) : Option WattsUserProfile := do
  let data ← asDict? (pyOrEmptyDict (rawGet payload "data"))
  let items ← pyIter? (rawGetD data "smarthomes" (PyVal.list []))
  let smarthomes ← items.foldlM userSummaryStep []
  pure { user_id := as_str (rawGet data "user_id"),
         email := as_str (rawGet data "email"),
         lang_code := as_str (rawGet data "lang_code"),
         cgu_id := as_str (rawGet data "cgu_id"),
         optin_stats := as_str (rawGet data "optin_stats"),
         smarthomes := smarthomes }

/-- Device-id list of one zone entry of parse_smarthome (the inner loop over
zone devices that feeds both WattsZone.device_ids and the zone lookup). -/
def parseZoneDeviceIds (zone_raw : List (String × PyVal)) : Option (List String) := do
  let devs ← pyIter? (rawGetD zone_raw "devices" (PyVal.list []))
  devs.foldlM
    (fun acc zone_device => do
      let zd ← asDict? zone_device
      let zone_device_id := as_str (rawGet zd "id_device")
      pure (if zone_device_id = "" then acc else acc ++ [zone_device_id]))
    []

/-- The WattsZone built for one zone entry of parse_smarthome. -/
def mkZone (zone_raw : List (String × PyVal)) (device_ids : List String) : WattsZone :=
  { num_zone := as_str (rawGet zone_raw "num_zone"),
    zone_label := as_str (rawGet zone_raw "zone_label"),
    zone_type_label := as_str (rawGet zone_raw "label_zone_type"),
    zone_type_icon := as_str (rawGet zone_raw "picto_zone_type"),
    zone_image_id := as_str (rawGet zone_raw "zone_img_id"),
    device_ids := device_ids }

/-- One step of the zones loop of parse_smarthome: extend the zone list and
the device-id to zone lookup (later zones overwrite earlier entries for a
duplicated device id, as repeated dict assignment does). -/
def zonesStep (st : List WattsZone × List (String × WattsZone)) (v : PyVal) :
    Option (List WattsZone × List (String × WattsZone)) := do
  let zone_raw ← asDict? v
  let device_ids ← parseZoneDeviceIds zone_raw
  let zone := mkZone zone_raw device_ids
  pure (st.1 ++ [zone], device_ids.foldl (fun lk i => dictSetA lk i zone) st.2)

/-- The WattsDevice built by add_raw_device inside parse_smarthome for one
raw device dict with the given (non-empty) id_device. -/
def mkRawDevice (resolved_smarthome_id : String) (zone_lookup : List (String × WattsZone))
    (id_device : String) (raw_device : List (String × PyVal)) : WattsDevice :=
  { smarthome_id := resolved_smarthome_id,
    id := as_str (rawGet raw_device "id"),
    id_device := id_device,
    name := as_str (rawGet raw_device "nom_appareil"),
    zone_id :=
      match lookupA zone_lookup id_device with
      | some zone => zone.num_zone
      | Option.none => as_str (rawGet raw_device "num_zone"),
    zone_name :=
      match lookupA zone_lookup id_device with
      | some zone => zone.zone_label
      | Option.none => "",
    bundle_id := as_str (rawGet raw_device "bundle_id"),
    gv_mode := as_str (rawGet raw_device "gv_mode"),
    nv_mode := as_str (rawGet raw_device "nv_mode"),
    temperature_air_raw := as_int (rawGet raw_device "temperature_air"),
    temperature_floor_raw := as_int (rawGet raw_device "temperature_sol"),
    heating_up := as_str (rawGet raw_device "heating_up") = "1",
    error_code := (as_int (rawGet raw_device "error_code")).getD 0,
    min_set_point_raw := as_int (rawGet raw_device "min_set_point"),
    max_set_point_raw := as_int (rawGet raw_device "max_set_point"),
    time_boost_seconds := (as_int (rawGet raw_device BOOST_TIMER)).getD 0,
    setpoints_raw :=
      (SETPOINT_KEYS ++ [SETPOINT_MANUAL]).foldl
        (fun acc setpoint_key =>
          match as_int (rawGet raw_device setpoint_key) with
          | some raw_value => acc ++ [(setpoint_key, raw_value)]
          | Option.none => acc)
        [],
    errors := [] }

/-- One guarded call of add_raw_device: non-dict items are skipped by the
isinstance checks at both call sites, an empty id or an already-seen id is
skipped inside add_raw_device, and otherwise the built device is appended
under its id. -/
def addRawDevice (resolved_smarthome_id : String) (zone_lookup : List (String × WattsZone))
    (acc : List (String × WattsDevice)) (v : PyVal) : List (String × WattsDevice) :=
  match v with
  | PyVal.dict raw_device =>
      let id_device := as_str (rawGet raw_device "id_device")
      if id_device = "" || dictHasA acc id_device then acc
      else acc ++ [(id_device, mkRawDevice resolved_smarthome_id zone_lookup id_device raw_device)]
  | _ => acc

/-- One step of the second zones loop of parse_smarthome, ingesting the
devices nested in one zone entry. -/
def zoneDevicesStep (resolved_smarthome_id : String) (zone_lookup : List (String × WattsZone))
    (acc : List (String × WattsDevice)) (v : PyVal) : Option (List (String × WattsDevice)) := do
  let zone_raw ← asDict? v
  let devs ← pyIter? (rawGetD zone_raw "devices" (PyVal.list []))
  pure (devs.foldl (addRawDevice resolved_smarthome_id zone_lookup) acc)

/-- One entry of the users tuple of parse_smarthome. -/
def parseUserRef (v : PyVal) : Option WattsUserRef := do
  let raw_user ← asDict? v
  pure { user_id := as_str (rawGet raw_user "user_id"),
         user_email := as_str (rawGet raw_user "user_email") }

/-- One entry of the modes tuple of parse_smarthome. -/
def parseModeInfo (v : PyVal) : Option WattsModeInfo := do
  let raw_mode ← asDict? v
  pure { smarthome_id := as_str (rawGet raw_mode "smarthome_id"),
         mode_type_id := as_str (rawGet raw_mode "smarthome_mode_type_id"),
         bundle_id := as_str (rawGet raw_mode "bundle_id"),
         nvgv_mode_id := as_str (rawGet raw_mode "nvgv_mode_id") }

/-- Embeds models.parse_smarthome: parse the smarthome/read response. -/
def parse_smarthome (payload : List (String × PyVal)) (smarthome_id : String) :
    Option WattsSmarthome := do
  let data ← asDict? (pyOrEmptyDict (rawGet payload "data"))
  let resolved_smarthome_id :=
    if as_str (rawGet data "smarthome_id") = "" then smarthome_id
    else as_str (rawGet data "smarthome_id")
  let zoneItems ← pyIter? (rawGetD data "zones" (PyVal.list []))
  let zonesResult ← zoneItems.foldlM zonesStep ([], [])
  let deviceItems ← pyIter? (rawGetD data "devices" (PyVal.list []))
  let firstPass := deviceItems.foldl (addRawDevice resolved_smarthome_id zonesResult.2) []
  let devicesById ← zoneItems.foldlM (zoneDevicesStep resolved_smarthome_id zonesResult.2) firstPass
  let userItems ← pyIter? (rawGetD data "users" (PyVal.list []))
  let users ← userItems.mapM parseUserRef
  let modeItems ← pyIter? (rawGetD data "modes" (PyVal.list []))
  let modes ← modeItems.mapM parseModeInfo
  pure { smarthome_id := resolved_smarthome_id,
         label := as_str (rawGet data "label"),
         address := as_str (rawGet data "address_position"),
         latitude := as_str (rawGet data "latitude"),
         longitude := as_str (rawGet data "longitude"),
         mac_address := as_str (rawGet data "mac_address"),
         general_mode := as_str (rawGet data "general_mode"),
         holiday_mode := as_str (rawGet data "holiday_mode"),
         unit_mode := as_str (rawGet data "param_c_f"),
         holiday_start := as_str (rawGet data "holiday_start"),
         holiday_end := as_str (rawGet data "holiday_end"),
         jet_lag := (as_int (rawGet data "jet_lag")).getD 0,
         users := users,
         modes := modes,
         zones := zonesResult.1,
         devices := devicesById.map (fun p => p.2) }

/-- The errors tuple built for one raw device entry of
parse_smarthome_errors (the comprehension keeps only dict entries). -/
def parseErrList (items : List PyVal) : List WattsDeviceError :=
  items.filterMap
    (fun e =>
      match e with
      | PyVal.dict raw_error =>
          some { code := as_str (rawGet raw_error "code"),
                 title := as_str (rawGet raw_error "title"),
                 message := as_str (rawGet raw_error "error") }
      | _ => Option.none)

/-- One step of the inner loop of parse_smarthome_errors over the raw
devices of one smarthome entry. -/
def errDeviceStep (parsed : List (String × List WattsDeviceError)) (v : PyVal) :
    Option (List (String × List WattsDeviceError)) :=
  match v with
  | PyVal.dict raw_device =>
      let id_device := as_str (rawGet raw_device "id_device")
      if id_device = "" then some parsed
      else do
        let items ← pyIter? (rawGetD raw_device "errors" (PyVal.list []))
        pure (dictSetA parsed id_device (parseErrList items))
  | _ => some parsed

/-- Embeds models.parse_smarthome_errors: per-device error map from the
smarthome/get_errors response. -/
def parse_smarthome_errors (payload : List (String × PyVal)) :
    Option (List (String × List WattsDeviceError)) := do
  let data ← asDict? (pyOrEmptyDict (rawGet payload "data"))
  let results ← asDict? (pyOrEmptyDict (rawGet data "results"))
  let by_device ← asDict? (pyOrEmptyDict (rawGet results "by_device"))
  by_device.foldlM
    (fun parsed entry =>
      match entry.2 with
      | PyVal.dict smarthome_data =>
          smarthome_data.foldlM (fun p inner => errDeviceStep p inner.2) parsed
      | _ => pure parsed)
    []

/-- The contribution of one user-profile smarthome summary to parse_state:
the outer none models an exception escaping, some none models a summary
skipped because its payload is missing. -/
def homeResult (smarthome_payloads : List (String × List (String × PyVal)))
    (smarthome_error_payloads : List (String × List (String × PyVal)))
    (summary : WattsSmarthomeSummary) : Option (Option WattsSmarthome) :=
  match lookupA smarthome_payloads summary.smarthome_id with
  | Option.none => some Option.none
  | some smarthome_payload => do
      let sm ← parse_smarthome smarthome_payload summary.smarthome_id
      match lookupA smarthome_error_payloads summary.smarthome_id with
      | Option.none => pure (some sm)
      | some error_payload => do
          let error_map ← parse_smarthome_errors error_payload
          pure (some (sm.with_error_map error_map))

/-- One step of the smarthomes loop of parse_state: append the parsed
smarthome, or keep the accumulator unchanged for a summary whose payload is
missing (the continue branch). -/
def stateHomesStep (smarthome_payloads : List (String × List (String × PyVal)))
    (smarthome_error_payloads : List (String × List (String × PyVal)))
    (acc : List WattsSmarthome) (summary : WattsSmarthomeSummary) :
    Option (List WattsSmarthome) := do
  let contribution ← homeResult smarthome_payloads smarthome_error_payloads summary
  match contribution with
  | Option.none => pure acc
  | some sm => pure (acc ++ [sm])

/-- Embeds models.parse_state: build a WattsState from user plus smarthome
payloads, looking up each smarthome listed in the user profile and skipping
those with no detail payload. -/
def parse_state (user_payload : List (String × PyVal))
    (smarthome_payloads : List (String × List (String × PyVal)))
    (smarthome_error_payloads : List (String × List (String × PyVal))) :
    Option WattsState := do
  let user ← parse_user_profile user_payload
  let homes ← user.smarthomes.foldlM
    (stateHomesStep smarthome_payloads smarthome_error_payloads) []
  pure { user := user, smarthomes := homes }

/-! ## models.py: write-request builders -/

/-- Embeds models.build_mode_write_request: query/push payload for a mode
update; none models the ValueError raised for an unsupported mode option. -/
def build_mode_write_request (device : WattsDevice) (selected_mode : String) :
    Option WattsWriteRequest :=
  match lookupA MODE_OPTION_TO_CODE selected_mode with
  | Option.none => Option.none
  | some mode_code =>
      let query := dictSetA (dictSetA device.base_query "gv_mode" mode_code) "nv_mode" mode_code
      let query :=
        match lookupA SETPOINT_BY_MODE selected_mode with
        | some setpoint_key =>
            match device.get_setpoint_raw setpoint_key with
            | some mode_setpoint_raw =>
                dictSetA (dictSetA query setpoint_key mode_setpoint_raw) SETPOINT_MANUAL mode_setpoint_raw
            | Option.none => query
        | Option.none => query
      let query :=
        if selected_mode = MODE_BOOST && !dictHasA query BOOST_TIMER then
          dictSetA query BOOST_TIMER "3600"
        else query
      some { smarthome_id := device.smarthome_id, id_device := device.id_device, query := query }

/-- Embeds models.build_setpoint_write_request: query/push payload for one
setpoint update; none models the ValueError raised for an unsupported
setpoint key. -/
def build_setpoint_write_request (device : WattsDevice) (setpoint_key : String)
    (value_celsius : ℚ) : Option WattsWriteRequest :=
  if setpoint_key ∈ SETPOINT_KEYS then
    let raw_value := pyIntStr (celsius_to_raw value_celsius)
    let query := dictSetA device.base_query setpoint_key raw_value
    let query :=
      if lookupA SETPOINT_BY_MODE device.current_mode == some setpoint_key then
        dictSetA query SETPOINT_MANUAL raw_value
      else query
    some { smarthome_id := device.smarthome_id, id_device := device.id_device, query := query }
  else Option.none

/-! ## api.py: HTTP status handling of WattsApiClient._request

The raw transport is abstracted as an oracle from the attempt index to the
HTTP status of that attempt; re-authentication itself is assumed to
succeed (its own failures raise WattsAuthError upward in both the code and
the model).  The trace records how many forced re-authentications and raw
requests were performed. -/

/-- Result of one _request call. -/
inductive ReqOutcome where
  | success : ℕ → ReqOutcome
  | authError : String → ℕ → ReqOutcome
  | apiError : String → ℕ → ReqOutcome
deriving DecidableEq, Repr

/-- Trace of one _request call: forced re-authentications performed, raw
HTTP requests issued, and the outcome. -/
structure RequestTrace where
  reauths : ℕ
  rawRequests : ℕ
  outcome : ReqOutcome
deriving DecidableEq, Repr

/-- Is this HTTP status one of the two authentication-rejection codes the
client retries on (the status in (401, 403) test). -/
def isAuthRejection (status : ℕ) : Bool := status == 401 || status == 403

/-- Embeds the HTTP-status control flow of WattsApiClient._request
(api.py lines 184 to 207): one raw request; when authentication is required
and the status is 401 or 403, exactly one forced re-authentication followed
by exactly one retry; then a terminal 401/403 check raising WattsAuthError
and a general >= 400 check raising WattsApiError with the path and status. -/
def clientRequest (auth_required : Bool) (path : String) (statuses : ℕ → ℕ) : RequestTrace :=
  let status0 := statuses 0
  let retried := auth_required && isAuthRejection status0
  let status := if retried then statuses 1 else status0
  { reauths := if retried then 1 else 0,
    rawRequests := if retried then 2 else 1,
    outcome :=
      if isAuthRejection status then ReqOutcome.authError path status
      else if 400 ≤ status then ReqOutcome.apiError path status
      else ReqOutcome.success status }

/-! ## select.py: the mode-select write path

WattsDeviceModeSelect.async_select_option pushes a query and requests a
coordinator refresh; its externally visible behaviour is modelled as the
coordinator state after the call together with the ordered list of calls it
makes.  The coordinator state carries the polling interval in seconds. -/

/-- Coordinator state visible to the select entity: the current polling
interval in seconds. -/
structure SelCoordinator where
  update_interval : ℚ
deriving DecidableEq, Repr

/-- External calls made by async_select_option. -/
inductive SelAction where
  | pushQuery : String → List (String × String) → SelAction
  | requestRefresh : SelAction
  | logInvalidOption : String → SelAction
deriving DecidableEq, Repr

/-- MODE_LABEL_TO_CODE from select.py. -/
def SEL_MODE_LABEL_TO_CODE : List (String × String) :=
  [("Off", "1"), ("Comfort", "0"), ("Eco", "3"), ("Boost", "4"), ("Program", "8")]

/-- Embeds WattsDeviceModeSelect._query_base: required protocol fields for
device-scoped writes. -/
def selQueryBase (device_id device_query_id : String) : List (String × String) :=
  [("query[id_device]", device_id), ("query[id]", device_query_id),
   ("peremption", "15000"), ("context", "1")]

/-- The current time_boost reading of select.py lines 152 to 155:
int(float(device_data.get("time_boost", 0))) with any TypeError or
ValueError collapsing to 0. -/
def selCurrentTimeBoost (device_data : List (String × PyVal)) : ℤ :=
  match to_float (rawGetD device_data "time_boost" (PyVal.int 0)) with
  | some q => pyIntTrunc q
  | Option.none => 0

/-- Embeds WattsDeviceModeSelect.async_select_option (select.py lines 136
to 167): resolve the option to a mode code (logging and returning on an
unknown option), build the query dict, inject the 3600-second boost timer
default when boost is selected and the current timer is not positive, push
the query and request a refresh.  The coordinator state is returned
alongside the actions; the method never touches the polling interval. -/
def async_select_option (co : SelCoordinator) (smarthome_id device_id device_query_id : String)
    (device_data : List (String × PyVal)) (option : String) :
    SelCoordinator × List SelAction :=
  match lookupA SEL_MODE_LABEL_TO_CODE option with
  | Option.none => (co, [SelAction.logInvalidOption option])
  | some mode_code =>
      let query_data :=
        [("query[gv_mode]", mode_code), ("query[nv_mode]", mode_code)]
          ++ selQueryBase device_id device_query_id
      let query_data :=
        if mode_code = "4" && selCurrentTimeBoost device_data ≤ 0 then
          dictSetA query_data "query[time_boost]" "3600"
        else query_data
      (co, [SelAction.pushQuery smarthome_id query_data, SelAction.requestRefresh])

/-! ## Derived views and concrete inputs used by the theorems -/

/-- The resolved smarthome id computed at the top of parse_smarthome. -/
def smResolvedId (data : List (String × PyVal)) (smarthome_id : String) : String :=
  if as_str (rawGet data "smarthome_id") = "" then smarthome_id
  else as_str (rawGet data "smarthome_id")

/-- The first dict in a device-item list whose id_device field normalizes to
the given id (the occurrence that add_raw_device processes first). -/
def firstRawDeviceWithId : List PyVal → String → Option (List (String × PyVal))
  | [], _ => Option.none
  | PyVal.dict raw_device :: rest, id =>
      if as_str (rawGet raw_device "id_device") = id then some raw_device
      else firstRawDeviceWithId rest id
  | _ :: rest, id => firstRawDeviceWithId rest id

/-- Well-formedness of the devices_by_id accumulator of parse_smarthome:
keys are distinct, each stored device carries its key as id_device, and no
key is empty. -/
def accWf (acc : List (String × WattsDevice)) : Prop :=
  (acc.map (fun p => p.1)).Nodup ∧ ∀ p ∈ acc, p.2.id_device = p.1 ∧ p.1 ≠ ""

/-- A device snapshot whose boost timer is unset (time_boost_seconds is the
parser default 0), with comfort and boost setpoints known. -/
def devNoTimer : WattsDevice :=
  { smarthome_id := "SH1",
    id := "SH1#C001-000",
    id_device := "C001-000",
    name := "Living room",
    zone_id := "Z1",
    zone_name := "Living",
    bundle_id := "25",
    gv_mode := "0",
    nv_mode := "0",
    temperature_air_raw := some 214,
    temperature_floor_raw := Option.none,
    heating_up := false,
    error_code := 0,
    min_set_point_raw := some 50,
    max_set_point_raw := some 370,
    time_boost_seconds := 0,
    setpoints_raw := [(SETPOINT_COMFORT, 210), (SETPOINT_BOOST, 240)],
    errors := [] }

/-- A device snapshot currently in eco mode, used to exercise the setpoint
write builder on its active setpoint. -/
def devEco : WattsDevice :=
  { smarthome_id := "SH1",
    id := "SH1#C002-000",
    id_device := "C002-000",
    name := "Bedroom",
    zone_id := "Z2",
    zone_name := "Bedroom",
    bundle_id := "25",
    gv_mode := "3",
    nv_mode := "3",
    temperature_air_raw := some 190,
    temperature_floor_raw := Option.none,
    heating_up := false,
    error_code := 0,
    min_set_point_raw := some 50,
    max_set_point_raw := some 370,
    time_boost_seconds := 0,
    setpoints_raw := [(SETPOINT_COMFORT, 210), (SETPOINT_ECO, 170), (SETPOINT_MANUAL, 170)],
    errors := [] }

/-- The flat-list occurrence of device D1 in the duplicate-device payload. -/
def dupFlatDevice : List (String × PyVal) :=
  [("id_device", PyVal.str "D1"), ("nom_appareil", PyVal.str "Flat name")]

/-- The zone entry of the duplicate-device payload, nesting a second
occurrence of device D1 under a different name. -/
def dupZoneDict : List (String × PyVal) :=
  [("num_zone", PyVal.str "Z1"),
   ("zone_label", PyVal.str "Living"),
   ("devices", PyVal.list
      [PyVal.dict [("id_device", PyVal.str "D1"), ("nom_appareil", PyVal.str "Zone name")]])]

/-- The data dict of the duplicate-device payload. -/
def dupDataDict : List (String × PyVal) :=
  [("smarthome_id", PyVal.str "SH1"),
   ("devices", PyVal.list [PyVal.dict dupFlatDevice]),
   ("zones", PyVal.list [PyVal.dict dupZoneDict])]

/-- A smarthome/read payload in which device D1 appears both in the flat
devices list and nested in a zone, with different names. -/
def dupDevicePayload : List (String × PyVal) :=
  [("data", PyVal.dict dupDataDict)]

/-- The zone parsed from the duplicate-device payload. -/
def dupZoneObj : WattsZone :=
  { num_zone := "Z1", zone_label := "Living", zone_type_label := "",
    zone_type_icon := "", zone_image_id := "", device_ids := ["D1"] }

/-- The device parsed from the duplicate-device payload: the flat-list
occurrence supplies the structural fields, with the zone metadata
backfilled from the zone lookup. -/
def dupDeviceD1 : WattsDevice :=
  { smarthome_id := "SH1",
    id := "",
    id_device := "D1",
    name := "Flat name",
    zone_id := "Z1",
    zone_name := "Living",
    bundle_id := "",
    gv_mode := "",
    nv_mode := "",
    temperature_air_raw := Option.none,
    temperature_floor_raw := Option.none,
    heating_up := false,
    error_code := 0,
    min_set_point_raw := Option.none,
    max_set_point_raw := Option.none,
    time_boost_seconds := 0,
    setpoints_raw := [],
    errors := [] }

/-- The smarthome parsed from the duplicate-device payload. -/
def dupParsedSm : WattsSmarthome :=
  { smarthome_id := "SH1",
    label := "",
    address := "",
    latitude := "",
    longitude := "",
    mac_address := "",
    general_mode := "",
    holiday_mode := "",
    unit_mode := "",
    holiday_start := "",
    holiday_end := "",
    jet_lag := 0,
    users := [],
    modes := [],
    zones := [dupZoneObj],
    devices := [dupDeviceD1] }

/-- A user/read payload listing two smarthomes A and B. -/
def twoHomesUserPayload : List (String × PyVal) :=
  [("data", PyVal.dict
      [("user_id", PyVal.str "u1"),
       ("email", PyVal.str "user@example.com"),
       ("smarthomes", PyVal.list
          [PyVal.dict [("smarthome_id", PyVal.str "A"), ("label", PyVal.str "Home A")],
           PyVal.dict [("smarthome_id", PyVal.str "B"), ("label", PyVal.str "Home B")]])])]

/-- Detail payloads for the user above covering only smarthome A. -/
def onlyHomeAPayloads : List (String × List (String × PyVal)) :=
  [("A", [("data", PyVal.dict [("smarthome_id", PyVal.str "A"), ("label", PyVal.str "Home A")])])]

/-- The user profile parsed from twoHomesUserPayload. -/
def twoHomesProfile : WattsUserProfile :=
  { user_id := "u1",
    email := "user@example.com",
    lang_code := "",
    cgu_id := "",
    optin_stats := "",
    smarthomes :=
      [{ smarthome_id := "A", label := "Home A", address := "", latitude := "",
         longitude := "", mac_address := "", general_mode := "", holiday_mode := "",
         unit_mode := "" },
       { smarthome_id := "B", label := "Home B", address := "", latitude := "",
         longitude := "", mac_address := "", general_mode := "", holiday_mode := "",
         unit_mode := "" }] }

/-- The smarthome parsed from the detail payload of smarthome A. -/
def homeA : WattsSmarthome :=
  { smarthome_id := "A",
    label := "Home A",
    address := "",
    latitude := "",
    longitude := "",
    mac_address := "",
    general_mode := "",
    holiday_mode := "",
    unit_mode := "",
    holiday_start := "",
    holiday_end := "",
    jet_lag := 0,
    users := [],
    modes := [],
    zones := [],
    devices := [] }

/-- Status oracle: first response 401, retried response 200. -/
def statuses401Then200 : ℕ → ℕ := fun i => if i = 0 then 401 else 200

/-- Status oracle: first response 401, retried response 403. -/
def statuses401Then403 : ℕ → ℕ := fun i => if i = 0 then 401 else 403

/-- Status oracle: first response 401, retried response 500. -/
def statuses401Then500 : ℕ → ℕ := fun i => if i = 0 then 401 else 500

/-- Status oracle: every response 404. -/
def statusesAll404 : ℕ → ℕ := fun _ => 404

/-- A coordinator polling at the default 60-second interval. -/
def coNormal : SelCoordinator := { update_interval := 60 }

/-! ## Theorems -/

/-- C10: decode_temperature and decode_setpoint are extensionally equal
(their bodies are the same decoding pipeline), so temperature readings and
setpoints decode under one single codec. -/
theorem decode_temperature_eq_decode_setpoint :
    ∀ value : PyVal, decode_temperature value = decode_setpoint value :=
  fun _ => rfl

/-- C8 counterexample: the unknown code 5 formats as the fallback label, but
mode_code_from_label does not map that label back to the code; it returns
None, so the code is dropped, contrary to the claim. -/
theorem mode_label_fallback_drops_code :
    format_mode (PyVal.str "5") = some "Mode 5" ∧
    mode_code_from_label "Mode 5" = Option.none ∧
    mode_code_from_label "Mode 5" ≠ some "5" := by
  decide

/-- C8 (amended): for every code in the closed MODE_LABELS set, the
label-to-code mapping inverts the code-to-label mapping; unknown codes
format as the Mode-prefixed fallback but are mapped to None, not recovered. -/
theorem mode_label_roundtrip_on_known_codes :
    ∀ c l, (c, l) ∈ MODE_LABELS →
      format_mode (PyVal.str c) = some l ∧ mode_code_from_label l = some c := by
  intro c l h
  fin_cases h <;> exact (by decide)

/-- C8 witness: the round trip at the concrete code 4. -/
theorem mode_label_roundtrip_on_known_codes_witness :
    format_mode (PyVal.str "4") = some "Boost" ∧ mode_code_from_label "Boost" = some "4" :=
  mode_label_roundtrip_on_known_codes "4" "Boost" (by decide)

/-- C1: on a device whose boost timer is unset, selecting boost writes the
correct mode codes but leaves time_boost at 0 rather than injecting the
3600-second default: base_query always emits the time_boost key, so the
default-injection branch of build_mode_write_request is unreachable. -/
theorem boost_mode_write_keeps_zero_timer :
    (build_mode_write_request devNoTimer MODE_BOOST).map
        (fun r => lookupA r.query BOOST_TIMER) = some (some "0") ∧
    (build_mode_write_request devNoTimer MODE_BOOST).map
        (fun r => lookupA r.query BOOST_TIMER) ≠ some (some "3600") ∧
    (build_mode_write_request devNoTimer MODE_BOOST).map
        (fun r => (lookupA r.query "gv_mode", lookupA r.query "nv_mode")) =
      some (some "4", some "4") := by
  decide

/-- C9: a successful mode write through the select entity leaves the
coordinator polling interval untouched (the fast-poll constants are defined
but never applied), so the effective interval after the write stays at the
normal 60 seconds instead of the 15-second fast interval. -/
theorem select_option_never_changes_interval :
    (async_select_option coNormal "SH1" "C001-000" "SH1#C001-000" [] "Eco").1.update_interval
        = 60 ∧
    (60 : ℚ) ≠ POST_WRITE_FAST_POLL_INTERVAL_SECONDS ∧
    (async_select_option coNormal "SH1" "C001-000" "SH1#C001-000" [] "Eco").2 =
      [SelAction.pushQuery "SH1"
          ([("query[gv_mode]", "3"), ("query[nv_mode]", "3")]
            ++ selQueryBase "C001-000" "SH1#C001-000"),
       SelAction.requestRefresh] := by
  refine ⟨rfl, by norm_num [POST_WRITE_FAST_POLL_INTERVAL_SECONDS], rfl⟩

/-- C5: for an authenticated request, a first 401 or 403 triggers exactly
one forced re-authentication and exactly one retry; a second 401 or 403 is a
terminal auth error; any other status of at least 400 on the governing
response is an api error carrying the path and status. -/
theorem request_reauth_policy :
    ∀ (path : String) (statuses : ℕ → ℕ),
      (isAuthRejection (statuses 0) = true →
         (clientRequest true path statuses).reauths = 1 ∧
         (clientRequest true path statuses).rawRequests = 2 ∧
         (isAuthRejection (statuses 1) = true →
            (clientRequest true path statuses).outcome = ReqOutcome.authError path (statuses 1)) ∧
         (isAuthRejection (statuses 1) = false → 400 ≤ statuses 1 →
            (clientRequest true path statuses).outcome = ReqOutcome.apiError path (statuses 1)) ∧
         (statuses 1 < 400 →
            (clientRequest true path statuses).outcome = ReqOutcome.success (statuses 1))) ∧
      (isAuthRejection (statuses 0) = false →
         (clientRequest true path statuses).reauths = 0 ∧
         (clientRequest true path statuses).rawRequests = 1 ∧
         (400 ≤ statuses 0 →
            (clientRequest true path statuses).outcome = ReqOutcome.apiError path (statuses 0)) ∧
         (statuses 0 < 400 →
            (clientRequest true path statuses).outcome = ReqOutcome.success (statuses 0))) := by
  intro path statuses
  constructor
  · intro h0
    have hretry : (true && isAuthRejection (statuses 0)) = true := by simp [h0]
    refine ⟨by simp [clientRequest, hretry], by simp [clientRequest, hretry], ?_, ?_, ?_⟩
    · intro h1
      simp [clientRequest, hretry, h1]
    · intro h1 h400
      simp [clientRequest, hretry, h1, h400]
    · intro hlt
      have h1 : isAuthRejection (statuses 1) = false := by
        simp only [isAuthRejection, Bool.or_eq_false_iff, beq_eq_false_iff_ne]
        omega
      have h400 : ¬ (400 ≤ statuses 1) := by omega
      simp [clientRequest, hretry, h1, h400]
  · intro h0
    have hretry : (true && isAuthRejection (statuses 0)) = false := by simp [h0]
    refine ⟨by simp [clientRequest, hretry], by simp [clientRequest, hretry], ?_, ?_⟩
    · intro h400
      simp [clientRequest, hretry, h0, h400]
    · intro hlt
      have h400 : ¬ (400 ≤ statuses 0) := by omega
      simp [clientRequest, hretry, h0, h400]

/-- Facts about digit characters: rendering a digit below 10 gives a digit
character that parses back to the same digit and is neither whitespace nor a
sign character. -/
theorem digitChar_facts :
    ∀ d : ℕ, d < 10 →
      (digitChar d).isDigit = true ∧ digitVal (digitChar d) = d ∧
      isPySpace (digitChar d) = false ∧ digitChar d ≠ '-' ∧ digitChar d ≠ '+' := by
  intro d h
  interval_cases d <;> exact ⟨by decide, by decide, by decide, by decide, by decide⟩

/-- All digits produced by the fueled digit expansion are below 10. -/
theorem natDigitsRevAux_lt_ten :
    ∀ (fuel n : ℕ), ∀ d ∈ natDigitsRevAux fuel n, d < 10 := by
  intro fuel
  induction fuel with
  | zero => intro n d hd; simp [natDigitsRevAux] at hd
  | succ fuel ih =>
      intro n d hd
      by_cases hn : n = 0
      · simp [natDigitsRevAux, hn] at hd
      · simp only [natDigitsRevAux, if_neg hn, List.mem_cons] at hd
        rcases hd with hd | hd
        · subst hd; exact Nat.mod_lt _ (by norm_num)
        · exact ih _ _ hd

/-- Folding the big-endian digits of n over the base-10 accumulator
recovers n, shifted past the accumulated prefix. -/
theorem foldl_digits_natDigitsRevAux :
    ∀ (fuel n : ℕ) (acc : ℤ), n ≤ fuel →
      (natDigitsRevAux fuel n).reverse.foldl (fun (a : ℤ) (d : ℕ) => 10 * a + (d : ℤ)) acc
        = acc * 10 ^ (natDigitsRevAux fuel n).length + n := by
  intro fuel
  induction fuel with
  | zero =>
      intro n acc hn
      have h0 : n = 0 := Nat.le_zero.mp hn
      subst h0
      simp [natDigitsRevAux]
  | succ fuel ih =>
      intro n acc hn
      by_cases hz : n = 0
      · subst hz; simp [natDigitsRevAux]
      · have hdiv : n / 10 ≤ fuel := by
          have : n / 10 < n := Nat.div_lt_self (Nat.pos_of_ne_zero hz) (by norm_num)
          omega
        simp only [natDigitsRevAux, if_neg hz, List.reverse_cons, List.foldl_append,
          List.foldl_cons, List.foldl_nil, List.length_cons]
        rw [ih (n / 10) acc hdiv]
        have hn10 : (10 : ℤ) * ((n : ℕ) / 10 : ℕ) + ((n : ℕ) % 10 : ℕ) = (n : ℤ) := by
          omega
        calc 10 * (acc * 10 ^ (natDigitsRevAux fuel (n / 10)).length + ((n / 10 : ℕ) : ℤ))
              + ((n % 10 : ℕ) : ℤ)
            = acc * (10 ^ (natDigitsRevAux fuel (n / 10)).length * 10)
              + ((10 : ℤ) * ((n / 10 : ℕ) : ℤ) + ((n % 10 : ℕ) : ℤ)) := by ring
          _ = acc * 10 ^ ((natDigitsRevAux fuel (n / 10)).length + 1) + (n : ℤ) := by
              rw [hn10, pow_succ]

/-- The integer-part parser consumes a rendered digit list and returns the
base-10 value it denotes. -/
theorem parseDecInt_digits :
    ∀ (l : List ℕ) (acc : ℤ) (seen : Bool),
      (∀ d ∈ l, d < 10) → (l = [] → seen = true) →
      parseDecInt acc seen (l.map digitChar)
        = some (l.foldl (fun (a : ℤ) (d : ℕ) => 10 * a + (d : ℤ)) acc, 0) := by
  intro l
  induction l with
  | nil =>
      intro acc seen _ hseen
      rw [hseen rfl]
      simp [parseDecInt]
  | cons d t ih =>
      intro acc seen hlt _
      have hd : d < 10 := hlt d (List.mem_cons_self d t)
      obtain ⟨hdig, hval, -, -, -⟩ := digitChar_facts d hd
      simp only [List.map_cons, parseDecInt, hdig, if_true, hval, List.foldl_cons]
      exact ih _ true (fun x hx => hlt x (List.mem_cons_of_mem d hx)) (fun _ => rfl)

/-- dropWhile is the identity when no element satisfies the predicate. -/
theorem dropWhile_eq_self_of_all_false {p : Char → Bool} :
    ∀ l : List Char, (∀ c ∈ l, p c = false) → l.dropWhile p = l := by
  intro l h
  cases l with
  | nil => rfl
  | cons a t =>
      have : p a = false := h a (List.mem_cons_self a t)
      simp [List.dropWhile_cons, this]

/-- trimChars is the identity on whitespace-free character lists. -/
theorem trimChars_eq_self :
    ∀ l : List Char, (∀ c ∈ l, isPySpace c = false) → trimChars l = l := by
  intro l h
  unfold trimChars
  rw [dropWhile_eq_self_of_all_false l h]
  rw [dropWhile_eq_self_of_all_false l.reverse (fun c hc => h c (List.mem_reverse.mp hc))]
  exact List.reverse_reverse l

/-- The fueled digit expansion of a positive number is nonempty. -/
theorem natDigitsRev_ne_nil : ∀ n : ℕ, n ≠ 0 → natDigitsRev n ≠ [] := by
  intro n hn
  unfold natDigitsRev
  cases n with
  | zero => exact absurd rfl hn
  | succ m => simp [natDigitsRevAux, hn]

/-- Python str() of a natural number is a nonempty string. -/
theorem pyNatStr_ne_empty : ∀ n : ℕ, pyNatStr n ≠ "" := by
  intro n
  by_cases hn : n = 0
  · subst hn; decide
  · unfold pyNatStr
    rw [if_neg hn]
    intro hcontra
    have hdata : (natDigitsRev n).reverse.map digitChar = [] := by
      have := congrArg String.data hcontra
      simpa using this
    have : natDigitsRev n = [] := by
      have := List.map_eq_nil.mp hdata
      simpa using this
    exact natDigitsRev_ne_nil n hn this

/-- Parsing the decimal rendering of a natural number recovers the number:
the codec side of the str round trip. -/
theorem parseFloat_pyNatStr : ∀ n : ℕ, parseFloat (pyNatStr n) = some (n : ℚ) := by
  intro n
  by_cases hn : n = 0
  · subst hn
    have h0 : pyNatStr 0 = "0" := by decide
    rw [h0]
    unfold parseFloat
    rw [show parseDecSigned (trimChars "0".data) = some (0, 0) from by decide]
    simp
  · have hdigits : ∀ d ∈ (natDigitsRev n).reverse, d < 10 := by
      intro d hd
      exact natDigitsRevAux_lt_ten n n d (List.mem_reverse.mp hd)
    have hchars : ∀ c ∈ (natDigitsRev n).reverse.map digitChar, isPySpace c = false := by
      intro c hc
      obtain ⟨d, hd, hdc⟩ := List.mem_map.mp hc
      subst hdc
      exact (digitChar_facts d (hdigits d hd)).2.2.1
    have hne : (natDigitsRev n).reverse ≠ [] := by
      intro hcontra
      exact natDigitsRev_ne_nil n hn (by simpa using congrArg List.reverse hcontra)
    have hstr : (pyNatStr n).data = (natDigitsRev n).reverse.map digitChar := by
      unfold pyNatStr
      rw [if_neg hn]
    unfold parseFloat
    rw [hstr, trimChars_eq_self _ hchars]
    obtain ⟨d, t, hdt⟩ : ∃ d t, (natDigitsRev n).reverse = d :: t := by
      cases hcons : (natDigitsRev n).reverse with
      | nil => exact absurd hcons hne
      | cons d t => exact ⟨d, t, rfl⟩
    have hd10 : d < 10 := hdigits d (by rw [hdt]; exact List.mem_cons_self d t)
    obtain ⟨-, -, -, hminus, hplus⟩ := digitChar_facts d hd10
    have hsign : parseDecSigned ((natDigitsRev n).reverse.map digitChar)
        = parseDecInt 0 false ((natDigitsRev n).reverse.map digitChar) := by
      rw [hdt]
      simp only [List.map_cons, parseDecSigned]
      rw [if_neg hminus, if_neg hplus]
    rw [hsign, parseDecInt_digits _ 0 false hdigits (fun h => absurd h hne)]
    have hval : (natDigitsRev n).reverse.foldl (fun (a : ℤ) (d : ℕ) => 10 * a + (d : ℤ)) 0
        = (n : ℤ) := by
      unfold natDigitsRev
      rw [foldl_digits_natDigitsRevAux n n 0 (le_refl n)]
      ring
    rw [hval]
    simp

/-- Parsing the decimal rendering of a nonnegative integer recovers it. -/
theorem parseFloat_pyIntStr_nonneg :
    ∀ n : ℤ, 0 ≤ n → parseFloat (pyIntStr n) = some (n : ℚ) := by
  intro n hn
  unfold pyIntStr
  rw [if_neg (by omega)]
  rw [parseFloat_pyNatStr n.natAbs]
  congr 1
  rw [Int.cast_natAbs, abs_of_nonneg hn]

/-- Python str() of a nonnegative integer is nonempty, so to_float does not
hit the empty-string early return. -/
theorem pyIntStr_nonneg_ne_empty : ∀ n : ℤ, 0 ≤ n → pyIntStr n ≠ "" := by
  intro n hn
  unfold pyIntStr
  rw [if_neg (by omega)]
  exact pyNatStr_ne_empty n.natAbs

/-- to_float on the decimal rendering of a nonnegative integer recovers the
integer. -/
theorem to_float_pyIntStr :
    ∀ n : ℤ, 0 ≤ n → to_float (PyVal.str (pyIntStr n)) = some (n : ℚ) := by
  intro n hn
  simp only [to_float, if_neg (pyIntStr_nonneg_ne_empty n hn)]
  exact parseFloat_pyIntStr_nonneg n hn

/-- Python rounding lands within one half of the argument. -/
theorem abs_pyRound_sub_le : ∀ q : ℚ, |(pyRound q : ℚ) - q| ≤ 1 / 2 := by
  intro q
  have hfl : ((⌊q⌋ : ℤ) : ℚ) ≤ q := Int.floor_le q
  have hfu : q < (⌊q⌋ : ℚ) + 1 := Int.lt_floor_add_one q
  unfold pyRound
  split_ifs with h1 h2 h3 <;>
    · rw [abs_le]
      constructor <;> push_cast <;> linarith

/-- Python rounding of a value strictly within one half of an integer gives
that integer. -/
theorem pyRound_eq_of_abs_lt :
    ∀ (k : ℤ) (q : ℚ), |q - (k : ℚ)| < 1 / 2 → pyRound q = k := by
  intro k q h
  rw [abs_lt] at h
  obtain ⟨hL, hR⟩ := h
  by_cases hk : (k : ℚ) ≤ q
  · have hfl : ⌊q⌋ = k := by
      rw [Int.floor_eq_iff]
      constructor
      · exact hk
      · push_cast; linarith
    unfold pyRound
    rw [hfl, if_pos (by linarith)]
  · have hfl : ⌊q⌋ = k - 1 := by
      rw [Int.floor_eq_iff]
      constructor
      · push_cast; linarith
      · push_cast; linarith
    unfold pyRound
    rw [hfl]
    rw [if_neg (by push_cast; linarith), if_pos (by push_cast; linarith)]
    omega

/-- Unfolding lemma for association-list lookup at a cons cell. -/
theorem lookupA_cons {α : Type} (p : String × α) (t : List (String × α)) (k : String) :
    lookupA (p :: t) k = if p.1 == k then some p.2 else lookupA t k := by
  cases hbk : (p.1 == k) with
  | true => simp [lookupA, List.find?, hbk]
  | false => simp [lookupA, List.find?, hbk]

/-- Looking up the assigned key after an in-place dict update of an
existing key. -/
theorem lookupA_map_set_self {α : Type} (k : String) (v : α) :
    ∀ l : List (String × α), dictHasA l k = true →
      lookupA (l.map (fun p => if p.1 == k then (k, v) else p)) k = some v := by
  intro l
  induction l with
  | nil => intro h; simp [dictHasA] at h
  | cons p t ih =>
      intro h
      by_cases hp : p.1 = k
      · rw [List.map_cons, show (if p.1 == k then (k, v) else p) = (k, v) from by simp [hp],
          lookupA_cons]
        simp
      · have ht : dictHasA t k = true := by
          simp only [dictHasA, List.any_cons, Bool.or_eq_true, beq_iff_eq] at h
          rcases h with h | h
          · exact absurd h hp
          · simpa [dictHasA, List.any_eq_true] using h
        rw [List.map_cons, show (if p.1 == k then (k, v) else p) = p from by simp [hp],
          lookupA_cons, if_neg (by simp [hp])]
        exact ih ht

/-- Looking up the appended key after a dict update of a fresh key. -/
theorem lookupA_append_self {α : Type} (k : String) (v : α) :
    ∀ l : List (String × α),
      lookupA (l ++ [(k, v)]) k = if dictHasA l k then lookupA l k else some v := by
  intro l
  induction l with
  | nil =>
      rw [List.nil_append, lookupA_cons]
      simp [dictHasA, lookupA]
  | cons p t ih =>
      rw [List.cons_append, lookupA_cons]
      by_cases hp : p.1 = k
      · rw [if_pos (by simp [hp])]
        have hhas : dictHasA (p :: t) k = true := by simp [dictHasA, hp]
        rw [if_pos hhas, lookupA_cons, if_pos (by simp [hp])]
      · rw [if_neg (by simp [hp]), ih]
        have hstep : dictHasA (p :: t) k = dictHasA t k := by simp [dictHasA, hp]
        rw [hstep]
        by_cases hht : dictHasA t k
        · rw [if_pos hht, if_pos hht, lookupA_cons, if_neg (by simp [hp])]
        · rw [if_neg hht, if_neg hht]

/-- Looking up a different key is unaffected by an in-place dict update. -/
theorem lookupA_map_set_ne {α : Type} (k : String) (v : α) (k2 : String) (h : k2 ≠ k) :
    ∀ l : List (String × α),
      lookupA (l.map (fun p => if p.1 == k then (k, v) else p)) k2 = lookupA l k2 := by
  intro l
  induction l with
  | nil => rfl
  | cons p t ih =>
      by_cases hp : p.1 = k
      · rw [List.map_cons, show (if p.1 == k then (k, v) else p) = (k, v) from by simp [hp],
          lookupA_cons, lookupA_cons]
        rw [if_neg (by simp only [beq_iff_eq]; exact Ne.symm h)]
        rw [if_neg (by simp only [beq_iff_eq, hp]; exact Ne.symm h)]
        exact ih
      · rw [List.map_cons, show (if p.1 == k then (k, v) else p) = p from by simp [hp],
          lookupA_cons, lookupA_cons]
        by_cases hpk2 : p.1 = k2
        · rw [if_pos (by simp [hpk2]), if_pos (by simp [hpk2])]
        · rw [if_neg (by simp [hpk2]), if_neg (by simp [hpk2])]
          exact ih

/-- Looking up a different key is unaffected by appending a fresh key. -/
theorem lookupA_append_ne {α : Type} (k : String) (v : α) (k2 : String) (h : k2 ≠ k) :
    ∀ l : List (String × α), lookupA (l ++ [(k, v)]) k2 = lookupA l k2 := by
  intro l
  induction l with
  | nil =>
      rw [List.nil_append, lookupA_cons]
      rw [if_neg (by simp only [beq_iff_eq]; exact Ne.symm h)]
  | cons p t ih =>
      rw [List.cons_append, lookupA_cons, lookupA_cons]
      by_cases hpk2 : p.1 = k2
      · rw [if_pos (by simp [hpk2]), if_pos (by simp [hpk2])]
      · rw [if_neg (by simp [hpk2]), if_neg (by simp [hpk2])]
        exact ih

/-- Dict assignment then lookup of the same key yields the assigned value. -/
theorem lookupA_dictSetA_self {α : Type} (l : List (String × α)) (k : String) (v : α) :
    lookupA (dictSetA l k v) k = some v := by
  unfold dictSetA
  by_cases h : dictHasA l k
  · rw [if_pos h]
    exact lookupA_map_set_self k v l h
  · rw [if_neg h]
    rw [lookupA_append_self k v l]
    simp [h]

/-- Dict assignment leaves lookups of other keys unchanged. -/
theorem lookupA_dictSetA_ne {α : Type} (l : List (String × α)) (k : String) (v : α)
    (k2 : String) (h : k2 ≠ k) :
    lookupA (dictSetA l k v) k2 = lookupA l k2 := by
  unfold dictSetA
  by_cases hhas : dictHasA l k
  · rw [if_pos hhas]
    exact lookupA_map_set_ne k v k2 h l
  · rw [if_neg hhas]
    exact lookupA_append_ne k v k2 h l

/-- decode_setpoint on a value with no float reading. -/
theorem decode_setpoint_nofloat :
    ∀ value, to_float value = Option.none → decode_setpoint value = Option.none := by
  intro value h
  unfold decode_setpoint
  rw [h]

/-- decode_setpoint rejects raw values above the Fahrenheit validity
threshold (raw over 990, that is readings above 99.0 F). -/
theorem decode_setpoint_invalid :
    ∀ value raw, to_float value = some raw → 990 < raw →
      decode_setpoint value = Option.none := by
  intro value raw h hgt
  unfold decode_setpoint
  rw [h]
  show (if WATTS_INVALID_FAHRENHEIT_THRESHOLD < raw / WATTS_TEMPERATURE_FACTOR then Option.none
        else some (pyRound1 ((raw / WATTS_TEMPERATURE_FACTOR - 32) / 1.8))) = Option.none
  rw [if_pos]
  simp only [WATTS_INVALID_FAHRENHEIT_THRESHOLD, WATTS_TEMPERATURE_FACTOR]
  linarith

/-- decode_setpoint on a valid raw value applies the deci-scale, the
Fahrenheit offset, the nine-fifths conversion, and one-decimal rounding. -/
theorem decode_setpoint_some :
    ∀ value raw, to_float value = some raw → raw ≤ 990 →
      decode_setpoint value = some (pyRound1 ((raw / 10 - 32) / (9 / 5))) := by
  intro value raw h hle
  unfold decode_setpoint
  rw [h]
  show (if WATTS_INVALID_FAHRENHEIT_THRESHOLD < raw / WATTS_TEMPERATURE_FACTOR then Option.none
        else some (pyRound1 ((raw / WATTS_TEMPERATURE_FACTOR - 32) / 1.8))) =
      some (pyRound1 ((raw / 10 - 32) / (9 / 5)))
  rw [if_neg]
  · norm_num [WATTS_TEMPERATURE_FACTOR]
  · simp only [WATTS_INVALID_FAHRENHEIT_THRESHOLD, WATTS_TEMPERATURE_FACTOR]
    linarith

/-- C7: decode_temperature is total with the contracted behaviour: none
whenever the input has no float reading (including malformed strings and
non-numeric objects), none for sentinel-invalid raw values whose decoded
Fahrenheit reading exceeds the validity threshold (such as raw 2124), and
otherwise the deci-scaled, offset-adjusted Celsius value rounded to one
decimal place. -/
theorem decode_temperature_contract :
    (∀ value, to_float value = Option.none → decode_temperature value = Option.none) ∧
    (∀ value raw, to_float value = some raw → 990 < raw →
        decode_temperature value = Option.none) ∧
    (∀ value raw, to_float value = some raw → raw ≤ 990 →
        decode_temperature value = some (pyRound1 ((raw / 10 - 32) / (9 / 5)))) ∧
    decode_temperature (PyVal.int 2124) = Option.none ∧
    decode_temperature (PyVal.str "abc") = Option.none ∧
    decode_temperature (PyVal.list []) = Option.none := by
  have heq : ∀ value, decode_temperature value = decode_setpoint value := fun _ => rfl
  have p1 : ∀ value, to_float value = Option.none → decode_temperature value = Option.none := by
    intro value h
    rw [heq]
    exact decode_setpoint_nofloat value h
  have p2 : ∀ value raw, to_float value = some raw → 990 < raw →
      decode_temperature value = Option.none := by
    intro value raw h hgt
    rw [heq]
    exact decode_setpoint_invalid value raw h hgt
  have p3 : ∀ value raw, to_float value = some raw → raw ≤ 990 →
      decode_temperature value = some (pyRound1 ((raw / 10 - 32) / (9 / 5))) := by
    intro value raw h hle
    rw [heq]
    exact decode_setpoint_some value raw h hle
  have habc : to_float (PyVal.str "abc") = Option.none := by
    simp only [to_float]
    rw [if_neg (by decide)]
    unfold parseFloat
    rw [show parseDecSigned (trimChars "abc".data) = Option.none from by decide]
    rfl
  exact ⟨p1, p2, p3, p2 _ ((2124 : ℤ) : ℚ) rfl (by norm_num), p1 _ habc, p1 _ rfl⟩

/-- C7 witness: the contract applied at the concrete valid reading 698
(69.8 F, 21.0 C). -/
theorem decode_temperature_contract_witness :
    decode_temperature (PyVal.str "698") = some 21 := by
  have hto : to_float (PyVal.str "698") = some ((698 : ℤ) : ℚ) := by
    rw [show ("698" : String) = pyIntStr (698 : ℤ) from by decide]
    exact to_float_pyIntStr 698 (by norm_num)
  have h := decode_temperature_contract.2.2.1 (PyVal.str "698") ((698 : ℤ) : ℚ) hto (by norm_num)
  rw [h]
  have harg : ((((698 : ℤ) : ℚ)) / 10 - 32) / (9 / 5) * 10 = 210 := by push_cast; norm_num
  unfold pyRound1
  rw [harg]
  have hfl : ⌊(210 : ℚ)⌋ = 210 := by norm_num
  unfold pyRound
  rw [hfl, if_pos (by norm_num)]
  norm_num

/-- C6 (amended): for every temperature with one decimal place in the
supported 5.0 to 37.0 Celsius range (written as k tenths), decoding the
encoded setpoint returns exactly the original value. -/
theorem setpoint_roundtrip_tenths :
    ∀ k : ℤ, 50 ≤ k → k ≤ 370 →
      decode_setpoint (PyVal.str (encode_setpoint ((k : ℚ) / 10))) = some ((k : ℚ) / 10) := by
  intro k hk1 hk2
  have hkq1 : (50 : ℚ) ≤ (k : ℚ) := by exact_mod_cast hk1
  have hkq2 : (k : ℚ) ≤ 370 := by exact_mod_cast hk2
  have henc : encode_setpoint ((k : ℚ) / 10)
      = pyIntStr (pyRound (((k : ℚ) / 10 * 1.8 + 32) * 10)) := by
    simp only [encode_setpoint, WATTS_TEMPERATURE_FACTOR]
  have hAeq : ((k : ℚ) / 10 * 1.8 + 32) * 10 = 9 / 5 * (k : ℚ) + 320 := by
    norm_num
    ring
  have habs := abs_le.mp (abs_pyRound_sub_le (((k : ℚ) / 10 * 1.8 + 32) * 10))
  have hr410 : (410 : ℤ) ≤ pyRound (((k : ℚ) / 10 * 1.8 + 32) * 10) := by
    have hq : (409 : ℚ) < (pyRound (((k : ℚ) / 10 * 1.8 + 32) * 10) : ℚ) := by
      linarith [habs.1, hAeq]
    have hz : (409 : ℤ) < pyRound (((k : ℚ) / 10 * 1.8 + 32) * 10) := by exact_mod_cast hq
    omega
  have hr986 : pyRound (((k : ℚ) / 10 * 1.8 + 32) * 10) ≤ 986 := by
    have hq : (pyRound (((k : ℚ) / 10 * 1.8 + 32) * 10) : ℚ) < 987 := by
      linarith [habs.2, hAeq]
    have hz : pyRound (((k : ℚ) / 10 * 1.8 + 32) * 10) < (987 : ℤ) := by exact_mod_cast hq
    omega
  have hr0 : (0 : ℤ) ≤ pyRound (((k : ℚ) / 10 * 1.8 + 32) * 10) := by omega
  rw [henc]
  have hto := to_float_pyIntStr (pyRound (((k : ℚ) / 10 * 1.8 + 32) * 10)) hr0
  have hle : ((pyRound (((k : ℚ) / 10 * 1.8 + 32) * 10) : ℤ) : ℚ) ≤ 990 := by
    have : ((pyRound (((k : ℚ) / 10 * 1.8 + 32) * 10) : ℤ) : ℚ) ≤ 986 := by
      exact_mod_cast hr986
    linarith
  rw [decode_setpoint_some _ _ hto hle]
  have hexp :
      (((pyRound (((k : ℚ) / 10 * 1.8 + 32) * 10) : ℤ) : ℚ) / 10 - 32) / (9 / 5) * 10
        - (k : ℚ)
      = (((pyRound (((k : ℚ) / 10 * 1.8 + 32) * 10) : ℤ) : ℚ)
          - (9 / 5 * (k : ℚ) + 320)) * (5 / 9) := by
    ring
  have hcenter :
      |(((pyRound (((k : ℚ) / 10 * 1.8 + 32) * 10) : ℤ) : ℚ) / 10 - 32) / (9 / 5) * 10
        - (k : ℚ)| < 1 / 2 := by
    rw [abs_lt]
    constructor
    · linarith [habs.1, hAeq, hexp]
    · linarith [habs.2, hAeq, hexp]
  have hk' : pyRound ((((pyRound (((k : ℚ) / 10 * 1.8 + 32) * 10) : ℤ) : ℚ) / 10 - 32)
      / (9 / 5) * 10) = k :=
    pyRound_eq_of_abs_lt k _ hcenter
  unfold pyRound1
  rw [hk']

/-- C6 counterexample: at 21.03 Celsius (inside the supported range) the
decoded value of the encoded setpoint is 21.1, while round(21.03, 1) is
21.0, so the round trip does not return the value rounded to one decimal
place. -/
theorem setpoint_roundtrip_cex :
    decode_setpoint (PyVal.str (encode_setpoint ((2103 : ℚ) / 100))) = some ((211 : ℚ) / 10) ∧
    pyRound1 ((2103 : ℚ) / 100) = 21 ∧
    ((211 : ℚ) / 10 ≠ 21) := by
  have hA : (((2103 : ℚ) / 100) * 1.8 + 32) * 10 = 34927 / 50 := by norm_num
  have hfloor : ⌊(34927 : ℚ) / 50⌋ = 698 := by norm_num
  have hround : pyRound ((34927 : ℚ) / 50) = 699 := by
    unfold pyRound
    rw [hfloor, if_neg (by norm_num), if_pos (by norm_num)]
    norm_num
  have henc : encode_setpoint ((2103 : ℚ) / 100) = pyIntStr (699 : ℤ) := by
    simp only [encode_setpoint, WATTS_TEMPERATURE_FACTOR]
    rw [hA, hround]
  have hto : to_float (PyVal.str (pyIntStr (699 : ℤ))) = some ((699 : ℤ) : ℚ) :=
    to_float_pyIntStr 699 (by norm_num)
  refine ⟨?_, ?_, by norm_num⟩
  · rw [henc, decode_setpoint_some _ _ hto (by norm_num)]
    have harg : ((((699 : ℤ) : ℚ)) / 10 - 32) / (9 / 5) * 10 = 1895 / 9 := by
      push_cast
      norm_num
    unfold pyRound1
    rw [harg]
    have hfl2 : ⌊(1895 : ℚ) / 9⌋ = 210 := by norm_num
    unfold pyRound
    rw [hfl2, if_neg (by norm_num), if_pos (by norm_num)]
    norm_num
  · have harg : (2103 : ℚ) / 100 * 10 = 2103 / 10 := by norm_num
    unfold pyRound1
    rw [harg]
    have hfl3 : ⌊(2103 : ℚ) / 10⌋ = 210 := by norm_num
    unfold pyRound
    rw [hfl3, if_pos (by norm_num)]
    norm_num

/-- C6 witness: the amended round trip at the concrete value 21.0 Celsius
(210 tenths). -/
theorem setpoint_roundtrip_tenths_witness :
    (50 : ℤ) ≤ 210 ∧ (210 : ℤ) ≤ 370 ∧
    decode_setpoint (PyVal.str (encode_setpoint (((210 : ℤ) : ℚ) / 10)))
      = some (((210 : ℤ) : ℚ) / 10) :=
  ⟨by norm_num, by norm_num, setpoint_roundtrip_tenths 210 (by norm_num) (by norm_num)⟩

/-- C2: for every device and every key in the closed setpoint-key set, the
setpoint write request stores the encoded raw value under that key; when the
key is the setpoint associated with the device's current mode it also
mirrors the same encoded value into the manual-setpoint field, and when it
is not, every other key of the query (the manual field included) keeps its
base-query value. -/
theorem setpoint_write_mirrors_active :
    ∀ (device : WattsDevice) (setpoint_key : String) (value_celsius : ℚ),
      setpoint_key ∈ SETPOINT_KEYS →
      ((build_setpoint_write_request device setpoint_key value_celsius).map
          (fun r => lookupA r.query setpoint_key)
        = some (some (pyIntStr (celsius_to_raw value_celsius)))) ∧
      (lookupA SETPOINT_BY_MODE device.current_mode = some setpoint_key →
        (build_setpoint_write_request device setpoint_key value_celsius).map
            (fun r => lookupA r.query SETPOINT_MANUAL)
          = some (some (pyIntStr (celsius_to_raw value_celsius)))) ∧
      (lookupA SETPOINT_BY_MODE device.current_mode ≠ some setpoint_key →
        ∀ other_key, other_key ≠ setpoint_key →
          (build_setpoint_write_request device setpoint_key value_celsius).map
              (fun r => lookupA r.query other_key)
            = some (lookupA device.base_query other_key)) ∧
      (lookupA SETPOINT_BY_MODE device.current_mode = some setpoint_key →
        ∀ other_key, other_key ≠ setpoint_key → other_key ≠ SETPOINT_MANUAL →
          (build_setpoint_write_request device setpoint_key value_celsius).map
              (fun r => lookupA r.query other_key)
            = some (lookupA device.base_query other_key)) := by
  intro device setpoint_key value_celsius hk
  have hkm : setpoint_key ≠ SETPOINT_MANUAL := by
    fin_cases hk <;> decide
  by_cases hactive : lookupA SETPOINT_BY_MODE device.current_mode = some setpoint_key
  · have hb : build_setpoint_write_request device setpoint_key value_celsius
        = some { smarthome_id := device.smarthome_id, id_device := device.id_device,
                 query := dictSetA
                   (dictSetA device.base_query setpoint_key
                     (pyIntStr (celsius_to_raw value_celsius)))
                   SETPOINT_MANUAL (pyIntStr (celsius_to_raw value_celsius)) } := by
      unfold build_setpoint_write_request
      rw [if_pos hk]
      have hcond : (lookupA SETPOINT_BY_MODE device.current_mode == some setpoint_key)
          = true := by
        rw [beq_iff_eq]
        exact hactive
      simp only [hcond, if_true]
    refine ⟨?_, ?_, ?_, ?_⟩
    · rw [hb]
      simp only [Option.map_some']
      rw [lookupA_dictSetA_ne _ _ _ _ hkm, lookupA_dictSetA_self]
    · intro _
      rw [hb]
      simp only [Option.map_some']
      rw [lookupA_dictSetA_self]
    · intro hcontra
      exact absurd hactive hcontra
    · intro _ other_key hne1 hne2
      rw [hb]
      simp only [Option.map_some']
      rw [lookupA_dictSetA_ne _ _ _ _ hne2, lookupA_dictSetA_ne _ _ _ _ hne1]
  · have hb : build_setpoint_write_request device setpoint_key value_celsius
        = some { smarthome_id := device.smarthome_id, id_device := device.id_device,
                 query := dictSetA device.base_query setpoint_key
                   (pyIntStr (celsius_to_raw value_celsius)) } := by
      unfold build_setpoint_write_request
      rw [if_pos hk]
      have hcond : (lookupA SETPOINT_BY_MODE device.current_mode == some setpoint_key)
          = false := by
        rw [beq_eq_false_iff_ne]
        exact hactive
      simp only [hcond, if_false, Bool.false_eq_true]
    refine ⟨?_, ?_, ?_, ?_⟩
    · rw [hb]
      simp only [Option.map_some']
      rw [lookupA_dictSetA_self]
    · intro hcontra
      exact absurd hcontra hactive
    · intro _ other_key hne1
      rw [hb]
      simp only [Option.map_some']
      rw [lookupA_dictSetA_ne _ _ _ _ hne1]
    · intro hcontra
      exact absurd hcontra hactive

/-- C2 witness: on the eco-mode device, writing the eco setpoint (the
active one) at 21.0 C stores raw 210 in both the eco field and the manual
field. -/
theorem setpoint_write_mirrors_active_witness :
    SETPOINT_ECO ∈ SETPOINT_KEYS ∧
    (build_setpoint_write_request devEco SETPOINT_ECO 21).map
        (fun r => lookupA r.query SETPOINT_ECO)
      = some (some (pyIntStr (celsius_to_raw 21))) ∧
    (build_setpoint_write_request devEco SETPOINT_ECO 21).map
        (fun r => lookupA r.query SETPOINT_MANUAL)
      = some (some (pyIntStr (celsius_to_raw 21))) ∧
    pyIntStr (celsius_to_raw 21) = "210" := by
  have h := setpoint_write_mirrors_active devEco SETPOINT_ECO 21 (by decide)
  have hraw : celsius_to_raw 21 = 210 := by
    unfold celsius_to_raw RAW_TEMPERATURE_FACTOR
    rw [show (21 : ℚ) * 10 = 210 from by norm_num]
    unfold pyRound
    rw [show ⌊(210 : ℚ)⌋ = 210 from by norm_num, if_pos (by norm_num)]
  refine ⟨by decide, h.1, h.2.1 (by decide), ?_⟩
  rw [hraw]
  decide

/-- A successful lookup implies the key is present. -/
theorem dictHasA_of_lookupA_some {α : Type} :
    ∀ (l : List (String × α)) (k : String) (d : α),
      lookupA l k = some d → dictHasA l k = true := by
  intro l
  induction l with
  | nil => intro k d h; exact Option.noConfusion h
  | cons p t ih =>
      intro k d h
      rw [lookupA_cons] at h
      by_cases hpk : p.1 = k
      · simp [dictHasA, hpk]
      · rw [if_neg (by simp [hpk])] at h
        have := ih k d h
        simp [dictHasA] at this ⊢
        exact Or.inr this

/-- Key presence as membership of the key column. -/
theorem dictHasA_iff_mem {α : Type} (l : List (String × α)) (k : String) :
    dictHasA l k = true ↔ k ∈ l.map Prod.fst := by
  simp [dictHasA, List.any_eq_true, List.mem_map, beq_iff_eq]

/-- Reduction of addRawDevice at a dict item. -/
theorem addRawDevice_dict (rid : String) (zl : List (String × WattsZone))
    (acc : List (String × WattsDevice)) (raw : List (String × PyVal)) :
    addRawDevice rid zl acc (PyVal.dict raw)
      = if (as_str (rawGet raw "id_device") = "" || dictHasA acc (as_str (rawGet raw "id_device")))
        then acc
        else acc ++ [(as_str (rawGet raw "id_device"),
            mkRawDevice rid zl (as_str (rawGet raw "id_device")) raw)] := rfl

/-- Appending a fresh single entry extends key presence pointwise. -/
theorem dictHasA_append_single {α : Type} (l : List (String × α)) (k2 : String) (v : α)
    (k : String) :
    dictHasA (l ++ [(k2, v)]) k = (dictHasA l k || (k2 == k)) := by
  simp [dictHasA, List.any_append]

/-- addRawDevice never disturbs an entry that is already present. -/
theorem addRawDevice_preserves
    (rid : String) (zl : List (String × WattsZone)) (k : String) (d : WattsDevice) :
    ∀ (acc : List (String × WattsDevice)) (v : PyVal),
      lookupA acc k = some d → lookupA (addRawDevice rid zl acc v) k = some d := by
  intro acc v h
  cases v
  case dict raw =>
    rw [addRawDevice_dict]
    split_ifs with hguard
    · exact h
    · have hhas : dictHasA acc (as_str (rawGet raw "id_device")) = false := by
        simp only [Bool.or_eq_true, decide_eq_true_eq, not_or] at hguard
        rcases Bool.eq_false_or_eq_true (dictHasA acc (as_str (rawGet raw "id_device"))) with
          ht | hf
        · exact absurd ht hguard.2
        · exact hf
      have hne : k ≠ as_str (rawGet raw "id_device") := by
        intro hcontra
        rw [← hcontra] at hhas
        rw [dictHasA_of_lookupA_some acc k d h] at hhas
        cases hhas
      rw [lookupA_append_ne _ _ _ hne]
      exact h
  all_goals exact h

/-- Adding a list of raw devices never disturbs an entry that is already
present. -/
theorem foldl_addRawDevice_preserves
    (rid : String) (zl : List (String × WattsZone)) (k : String) (d : WattsDevice) :
    ∀ (vs : List PyVal) (acc : List (String × WattsDevice)),
      lookupA acc k = some d →
      lookupA (vs.foldl (addRawDevice rid zl) acc) k = some d := by
  intro vs
  induction vs with
  | nil => intro acc h; exact h
  | cons v t ih =>
      intro acc h
      rw [List.foldl_cons]
      exact ih _ (addRawDevice_preserves rid zl k d acc v h)

/-- One zone-devices pass never disturbs an entry that is already
present. -/
theorem zoneDevicesStep_preserves
    (rid : String) (zl : List (String × WattsZone)) (k : String) (d : WattsDevice) :
    ∀ (acc : List (String × WattsDevice)) (v : PyVal) (res : List (String × WattsDevice)),
      zoneDevicesStep rid zl acc v = some res → lookupA acc k = some d →
      lookupA res k = some d := by
  intro acc v res hstep h
  unfold zoneDevicesStep at hstep
  cases hd : asDict? v with
  | none => rw [hd] at hstep; cases hstep
  | some zone_raw =>
      rw [hd] at hstep
      replace hstep :
          (pyIter? (rawGetD zone_raw "devices" (PyVal.list [])) >>= fun devs =>
            (pure (devs.foldl (addRawDevice rid zl) acc) : Option _)) = some res := hstep
      cases hi : pyIter? (rawGetD zone_raw "devices" (PyVal.list [])) with
      | none => rw [hi] at hstep; cases hstep
      | some devs =>
          rw [hi] at hstep
          have hres : devs.foldl (addRawDevice rid zl) acc = res := Option.some.inj hstep
          rw [← hres]
          exact foldl_addRawDevice_preserves rid zl k d devs acc h

/-- The whole second zones loop never disturbs an entry that is already
present. -/
theorem foldlM_zoneDevicesStep_preserves
    (rid : String) (zl : List (String × WattsZone)) (k : String) (d : WattsDevice) :
    ∀ (zs : List PyVal) (acc res : List (String × WattsDevice)),
      zs.foldlM (zoneDevicesStep rid zl) acc = some res → lookupA acc k = some d →
      lookupA res k = some d := by
  intro zs
  induction zs with
  | nil =>
      intro acc res hf h
      rw [List.foldlM_nil] at hf
      rw [← Option.some.inj hf]
      exact h
  | cons v t ih =>
      intro acc res hf h
      rw [List.foldlM_cons] at hf
      cases hstep : zoneDevicesStep rid zl acc v with
      | none => rw [hstep] at hf; cases hf
      | some acc1 =>
          rw [hstep] at hf
          exact ih acc1 res hf (zoneDevicesStep_preserves rid zl k d acc v acc1 hstep h)

/-- When the first raw device carrying the id sits in the processed list,
folding addRawDevice installs exactly the device built from that first
occurrence, regardless of the entries later occurrences would supply. -/
theorem foldl_addRawDevice_first
    (rid : String) (zl : List (String × WattsZone)) (id : String) (hid : id ≠ "") :
    ∀ (vs : List PyVal) (acc : List (String × WattsDevice)) (raw : List (String × PyVal)),
      dictHasA acc id = false → firstRawDeviceWithId vs id = some raw →
      lookupA (vs.foldl (addRawDevice rid zl) acc) id
        = some (mkRawDevice rid zl id raw) := by
  intro vs
  induction vs with
  | nil =>
      intro acc raw _ hfirst
      exact Option.noConfusion hfirst
  | cons v t ih =>
      intro acc raw hacc hfirst
      cases v
      case dict r =>
        by_cases hmatch : as_str (rawGet r "id_device") = id
        · have hraw : r = raw := by
            unfold firstRawDeviceWithId at hfirst
            rw [if_pos hmatch] at hfirst
            exact Option.some.inj hfirst
          subst hraw
          rw [List.foldl_cons, addRawDevice_dict]
          rw [if_neg (by
            simp only [hmatch, Bool.or_eq_true, decide_eq_true_eq, not_or]
            exact ⟨hid, by simp [hacc]⟩)]
          rw [hmatch]
          apply foldl_addRawDevice_preserves
          rw [lookupA_append_self]
          simp [hacc]
        · have hfirst2 : firstRawDeviceWithId t id = some raw := by
            unfold firstRawDeviceWithId at hfirst
            rw [if_neg hmatch] at hfirst
            exact hfirst
          have hacc2 : dictHasA (addRawDevice rid zl acc (PyVal.dict r)) id = false := by
            rw [addRawDevice_dict]
            split_ifs with hguard
            · exact hacc
            · rw [dictHasA_append_single]
              simp [hacc, hmatch]
          rw [List.foldl_cons]
          exact ih _ raw hacc2 hfirst2
      all_goals
        (have hfirst2 : firstRawDeviceWithId t id = some raw := hfirst
         rw [List.foldl_cons]
         exact ih _ raw hacc hfirst2)

/-- addRawDevice preserves accumulator well-formedness. -/
theorem addRawDevice_wf (rid : String) (zl : List (String × WattsZone)) :
    ∀ (acc : List (String × WattsDevice)) (v : PyVal),
      accWf acc → accWf (addRawDevice rid zl acc v) := by
  intro acc v h
  cases v
  case dict raw =>
    rw [addRawDevice_dict]
    split_ifs with hguard
    · exact h
    · obtain ⟨hne, hhas⟩ : (as_str (rawGet raw "id_device") ≠ "")
          ∧ dictHasA acc (as_str (rawGet raw "id_device")) = false := by
        simp only [Bool.or_eq_true, decide_eq_true_eq, not_or] at hguard
        refine ⟨hguard.1, ?_⟩
        rcases Bool.eq_false_or_eq_true (dictHasA acc (as_str (rawGet raw "id_device"))) with
          ht | hf
        · exact absurd ht hguard.2
        · exact hf
      constructor
      · rw [List.map_append, List.nodup_append]
        refine ⟨h.1, List.nodup_singleton _, fun a ha hb => ?_⟩
        have haeq : a = as_str (rawGet raw "id_device") := by simpa using hb
        rw [haeq] at ha
        have hmem : dictHasA acc (as_str (rawGet raw "id_device")) = true :=
          (dictHasA_iff_mem acc _).mpr ha
        rw [hmem] at hhas
        cases hhas
      · intro p hp
        rcases List.mem_append.mp hp with hp | hp
        · exact h.2 p hp
        · have hpe : p = (as_str (rawGet raw "id_device"),
              mkRawDevice rid zl (as_str (rawGet raw "id_device")) raw) := by simpa using hp
          subst hpe
          exact ⟨rfl, hne⟩
  all_goals exact h

/-- Folding addRawDevice preserves accumulator well-formedness. -/
theorem foldl_addRawDevice_wf (rid : String) (zl : List (String × WattsZone)) :
    ∀ (vs : List PyVal) (acc : List (String × WattsDevice)),
      accWf acc → accWf (vs.foldl (addRawDevice rid zl) acc) := by
  intro vs
  induction vs with
  | nil => intro acc h; exact h
  | cons v t ih =>
      intro acc h
      rw [List.foldl_cons]
      exact ih _ (addRawDevice_wf rid zl acc v h)

/-- One zone-devices pass preserves accumulator well-formedness. -/
theorem zoneDevicesStep_wf (rid : String) (zl : List (String × WattsZone)) :
    ∀ (acc : List (String × WattsDevice)) (v : PyVal) (res : List (String × WattsDevice)),
      zoneDevicesStep rid zl acc v = some res → accWf acc → accWf res := by
  intro acc v res hstep h
  unfold zoneDevicesStep at hstep
  cases hd : asDict? v with
  | none => rw [hd] at hstep; cases hstep
  | some zone_raw =>
      rw [hd] at hstep
      replace hstep :
          (pyIter? (rawGetD zone_raw "devices" (PyVal.list [])) >>= fun devs =>
            (pure (devs.foldl (addRawDevice rid zl) acc) : Option _)) = some res := hstep
      cases hi : pyIter? (rawGetD zone_raw "devices" (PyVal.list [])) with
      | none => rw [hi] at hstep; cases hstep
      | some devs =>
          rw [hi] at hstep
          rw [← Option.some.inj hstep]
          exact foldl_addRawDevice_wf rid zl devs acc h

/-- The whole second zones loop preserves accumulator well-formedness. -/
theorem foldlM_zoneDevicesStep_wf (rid : String) (zl : List (String × WattsZone)) :
    ∀ (zs : List PyVal) (acc res : List (String × WattsDevice)),
      zs.foldlM (zoneDevicesStep rid zl) acc = some res → accWf acc → accWf res := by
  intro zs
  induction zs with
  | nil =>
      intro acc res hf h
      rw [List.foldlM_nil] at hf
      rw [← Option.some.inj hf]
      exact h
  | cons v t ih =>
      intro acc res hf h
      rw [List.foldlM_cons] at hf
      cases hstep : zoneDevicesStep rid zl acc v with
      | none => rw [hstep] at hf; cases hf
      | some acc1 =>
          rw [hstep] at hf
          exact ih acc1 res hf (zoneDevicesStep_wf rid zl acc v acc1 hstep h)

/-- In a well-formed accumulator, the looked-up entry is the unique device
value carrying its id: the values list filtered by the id has length one
and its first hit is that entry. -/
theorem values_find_of_wf :
    ∀ (acc : List (String × WattsDevice)), accWf acc →
      ∀ (k : String) (d : WattsDevice), lookupA acc k = some d →
      ((acc.map (fun p => p.2)).filter (fun x => x.id_device == k)).length = 1 ∧
      (acc.map (fun p => p.2)).find? (fun x => x.id_device == k) = some d := by
  intro acc
  induction acc with
  | nil => intro _ k d h; exact Option.noConfusion h
  | cons p t ih =>
      intro hwf k d h
      have hkeys : p.1 ∉ t.map Prod.fst ∧ (t.map Prod.fst).Nodup := by
        have h1 := hwf.1
        rw [List.map_cons] at h1
        exact List.nodup_cons.mp h1
      have hwft : accWf t := ⟨hkeys.2, fun q hq => hwf.2 q (List.mem_cons_of_mem p hq)⟩
      have hpid : p.2.id_device = p.1 := (hwf.2 p (List.mem_cons_self p t)).1
      rw [lookupA_cons] at h
      by_cases hpk : p.1 = k
      · rw [if_pos (by simp [hpk])] at h
        have hd : p.2 = d := Option.some.inj h
        have hfilter : (t.map (fun q => q.2)).filter (fun x => x.id_device == k) = [] := by
          rw [List.filter_eq_nil_iff]
          intro x hx
          obtain ⟨q, hq, hqx⟩ := List.mem_map.mp hx
          have hq1 : q.2.id_device = q.1 := (hwft.2 q hq).1
          have hq2 : q.1 ≠ k := by
            intro hc
            exact hkeys.1 (by
              rw [hpk, ← hc] at *
              exact List.mem_map.mpr ⟨q, hq, rfl⟩)
          rw [← hqx]
          simp [hq1, hq2]
        constructor
        · rw [List.map_cons, List.filter_cons, if_pos (by simp [hpid, hpk])]
          simp [hfilter]
        · rw [List.map_cons]
          have hfind : (p.2 :: t.map (fun q => q.2)).find? (fun x => x.id_device == k)
              = some p.2 := by
            simp [List.find?, hpid, hpk]
          rw [hfind, hd]
      · rw [if_neg (by simp [hpk])] at h
        have hrec := ih hwft k d h
        have hpred : (p.2.id_device == k) = false := by simp [hpid, hpk]
        constructor
        · rw [List.map_cons, List.filter_cons, if_neg (by simp [hpred])]
          exact hrec.1
        · rw [List.map_cons]
          have hfind : (p.2 :: t.map (fun q => q.2)).find? (fun x => x.id_device == k)
              = (t.map (fun q => q.2)).find? (fun x => x.id_device == k) := by
            simp [List.find?, hpred]
          rw [hfind]
          exact hrec.2

/-- C3: in a smarthome payload whose devices section contains a raw device
with a given non-empty id (in particular when the same id also appears
nested inside a zone device list), the parsed smarthome contains exactly one
device with that id, and it is the one built from the first flat-list
occurrence, which therefore supplies the structural fields. -/
theorem parse_smarthome_dedup_first_wins :
    ∀ (payload : List (String × PyVal)) (smarthome_id : String) (sm : WattsSmarthome)
      (data : List (String × PyVal)) (zoneItems : List PyVal)
      (zs : List WattsZone × List (String × WattsZone))
      (deviceItems : List PyVal) (id : String) (raw : List (String × PyVal)),
      asDict? (pyOrEmptyDict (rawGet payload "data")) = some data →
      pyIter? (rawGetD data "zones" (PyVal.list [])) = some zoneItems →
      zoneItems.foldlM zonesStep ([], []) = some zs →
      pyIter? (rawGetD data "devices" (PyVal.list [])) = some deviceItems →
      id ≠ "" →
      firstRawDeviceWithId deviceItems id = some raw →
      parse_smarthome payload smarthome_id = some sm →
      (sm.devices.filter (fun d => d.id_device == id)).length = 1 ∧
      sm.devices.find? (fun d => d.id_device == id)
        = some (mkRawDevice (smResolvedId data smarthome_id) zs.2 id raw) := by
  intro payload smarthome_id sm data zoneItems zs deviceItems id raw
  intro hdata hzones hzs hdevs hid hfirst hparse
  unfold parse_smarthome at hparse
  simp only [Option.bind_eq_bind, Option.bind_eq_some, Option.pure_def, Option.some.injEq]
    at hparse
  obtain ⟨data2, hdata2, zoneItems2, hzones2, zs2, hzs2, deviceItems2, hdevs2,
    dById, hdById, userItems2, huser2, users2, husers2, modeItems2, hmi2, modes2, hms2,
    hsm⟩ := hparse
  rw [hdata] at hdata2
  obtain rfl : data = data2 := Option.some.inj hdata2
  rw [hzones] at hzones2
  obtain rfl : zoneItems = zoneItems2 := Option.some.inj hzones2
  rw [hzs] at hzs2
  obtain rfl : zs = zs2 := Option.some.inj hzs2
  rw [hdevs] at hdevs2
  obtain rfl : deviceItems = deviceItems2 := Option.some.inj hdevs2
  subst hsm
  show ((dById.map (fun p => p.2)).filter (fun d => d.id_device == id)).length = 1 ∧
    (dById.map (fun p => p.2)).find? (fun d => d.id_device == id)
      = some (mkRawDevice (smResolvedId data smarthome_id) zs.2 id raw)
  have hdById2 : zoneItems.foldlM
      (zoneDevicesStep (smResolvedId data smarthome_id) zs.2)
      (deviceItems.foldl (addRawDevice (smResolvedId data smarthome_id) zs.2) [])
      = some dById := hdById
  have h1 : lookupA
      (deviceItems.foldl (addRawDevice (smResolvedId data smarthome_id) zs.2) []) id
      = some (mkRawDevice (smResolvedId data smarthome_id) zs.2 id raw) :=
    foldl_addRawDevice_first _ _ id hid deviceItems [] raw rfl hfirst
  have h2 : lookupA dById id
      = some (mkRawDevice (smResolvedId data smarthome_id) zs.2 id raw) :=
    foldlM_zoneDevicesStep_preserves _ _ id _ zoneItems _ dById hdById2 h1
  have hwf0 : accWf ([] : List (String × WattsDevice)) := ⟨List.nodup_nil, by simp⟩
  have hwf1 := foldl_addRawDevice_wf (smResolvedId data smarthome_id) zs.2 deviceItems [] hwf0
  have hwf2 := foldlM_zoneDevicesStep_wf (smResolvedId data smarthome_id) zs.2 zoneItems _
    dById hdById2 hwf1
  exact values_find_of_wf dById hwf2 id _ h2

/-- C3 witness: the duplicate-device payload parses to a smarthome holding
exactly one device D1, built from the flat-list occurrence. -/
theorem parse_smarthome_dedup_first_wins_witness :
    (dupParsedSm.devices.filter (fun d => d.id_device == "D1")).length = 1 ∧
    dupParsedSm.devices.find? (fun d => d.id_device == "D1")
      = some (mkRawDevice (smResolvedId dupDataDict "SH1")
          ([dupZoneObj], [("D1", dupZoneObj)]).2 "D1" dupFlatDevice) :=
  parse_smarthome_dedup_first_wins dupDevicePayload "SH1" dupParsedSm dupDataDict
    [PyVal.dict dupZoneDict] ([dupZoneObj], [("D1", dupZoneObj)]) [PyVal.dict dupFlatDevice]
    "D1" dupFlatDevice rfl rfl (by decide) rfl (by decide) rfl rfl

/-- The smarthomes loop of parse_state, characterized: when every listed
summary either has no payload or parses cleanly, the fold succeeds and
collects exactly the parsed homes of the summaries whose payload is
present, in order. -/
theorem foldlM_stateHomesStep
    (smarthome_payloads smarthome_error_payloads : List (String × List (String × PyVal))) :
    ∀ (l : List WattsSmarthomeSummary) (acc : List WattsSmarthome),
      (∀ s ∈ l, homeResult smarthome_payloads smarthome_error_payloads s ≠ Option.none) →
      l.foldlM (stateHomesStep smarthome_payloads smarthome_error_payloads) acc
        = some (acc ++ l.filterMap
            (fun s => (homeResult smarthome_payloads smarthome_error_payloads s).getD
              Option.none)) := by
  intro l
  induction l with
  | nil => intro acc _; simp
  | cons s t ih =>
      intro acc h
      have hs := h s (List.mem_cons_self s t)
      obtain ⟨c, hc⟩ : ∃ c, homeResult smarthome_payloads smarthome_error_payloads s
          = some c := by
        cases hcase : homeResult smarthome_payloads smarthome_error_payloads s with
        | none => exact absurd hcase hs
        | some c => exact ⟨c, rfl⟩
      have hrest : ∀ x ∈ t, homeResult smarthome_payloads smarthome_error_payloads x
          ≠ Option.none := fun x hx => h x (List.mem_cons_of_mem s hx)
      cases c with
      | none =>
          have hstep : stateHomesStep smarthome_payloads smarthome_error_payloads acc s
              = some acc := by
            unfold stateHomesStep
            rw [hc]
            rfl
          rw [List.foldlM_cons, hstep]
          have hrec := ih acc hrest
          rw [show (acc ++ List.filterMap
              (fun s => (homeResult smarthome_payloads smarthome_error_payloads s).getD
                Option.none) (s :: t))
            = acc ++ List.filterMap
              (fun s => (homeResult smarthome_payloads smarthome_error_payloads s).getD
                Option.none) t from by simp [List.filterMap_cons, hc]]
          exact hrec
      | some sm =>
          have hstep : stateHomesStep smarthome_payloads smarthome_error_payloads acc s
              = some (acc ++ [sm]) := by
            unfold stateHomesStep
            rw [hc]
            rfl
          rw [List.foldlM_cons, hstep]
          have hrec := ih (acc ++ [sm]) hrest
          rw [show (acc ++ List.filterMap
              (fun s => (homeResult smarthome_payloads smarthome_error_payloads s).getD
                Option.none) (s :: t))
            = (acc ++ [sm]) ++ List.filterMap
              (fun s => (homeResult smarthome_payloads smarthome_error_payloads s).getD
                Option.none) t from by simp [List.filterMap_cons, hc]]
          exact hrec

/-- C4: parse_state never raises because a smarthome listed in the user
profile has no entry in the payload map: whenever every present payload
parses, parse_state succeeds, the result contains exactly the parsed
smarthomes of the summaries with a payload (in order), and a summary whose
payload is missing contributes the silently-skipped value. -/
theorem parse_state_skips_missing :
    ∀ (user_payload : List (String × PyVal))
      (smarthome_payloads smarthome_error_payloads : List (String × List (String × PyVal)))
      (profile : WattsUserProfile),
      parse_user_profile user_payload = some profile →
      (∀ s ∈ profile.smarthomes,
        homeResult smarthome_payloads smarthome_error_payloads s ≠ Option.none) →
      parse_state user_payload smarthome_payloads smarthome_error_payloads
        = some { user := profile,
                 smarthomes := profile.smarthomes.filterMap
                   (fun s => (homeResult smarthome_payloads smarthome_error_payloads s).getD
                     Option.none) } ∧
      (∀ s ∈ profile.smarthomes, lookupA smarthome_payloads s.smarthome_id = Option.none →
          homeResult smarthome_payloads smarthome_error_payloads s = some Option.none) := by
  intro user_payload smarthome_payloads smarthome_error_payloads profile hp hok
  constructor
  · unfold parse_state
    rw [hp]
    show (profile.smarthomes.foldlM
          (stateHomesStep smarthome_payloads smarthome_error_payloads) [] >>= fun homes =>
        pure { user := profile, smarthomes := homes } : Option WattsState) = _
    rw [foldlM_stateHomesStep smarthome_payloads smarthome_error_payloads
      profile.smarthomes [] hok]
    simp
  · intro s _ hmiss
    unfold homeResult
    rw [hmiss]

/-- C4 witness: a user profile listing smarthomes A and B with a payload
map covering only A parses into a state holding exactly home A; B is
silently excluded. -/
theorem parse_state_skips_missing_witness :
    parse_state twoHomesUserPayload onlyHomeAPayloads []
      = some { user := twoHomesProfile, smarthomes := [homeA] } := by
  have h := (parse_state_skips_missing twoHomesUserPayload onlyHomeAPayloads []
    twoHomesProfile (by decide) (by decide)).1
  rw [h]
  decide

/-- C5 witness: the policy evaluated on concrete status oracles: a 401 then
a 200 succeeds after one re-authentication, a 401 then a 403 is an auth
error, and a first-response 404 is an api error with no re-authentication. -/
theorem request_reauth_policy_witness :
    (clientRequest true "/api/v0.1/human/user/read/" statuses401Then200).reauths = 1 ∧
    (clientRequest true "/api/v0.1/human/user/read/" statuses401Then200).outcome =
      ReqOutcome.success 200 ∧
    (clientRequest true "/api/v0.1/human/user/read/" statuses401Then403).outcome =
      ReqOutcome.authError "/api/v0.1/human/user/read/" 403 ∧
    (clientRequest true "/api/v0.1/human/user/read/" statusesAll404).reauths = 0 ∧
    (clientRequest true "/api/v0.1/human/user/read/" statusesAll404).outcome =
      ReqOutcome.apiError "/api/v0.1/human/user/read/" 404 := by
  refine ⟨?_, ?_, ?_, ?_, ?_⟩
  · exact ((request_reauth_policy "/api/v0.1/human/user/read/" statuses401Then200).1
      (by decide)).1
  · exact ((request_reauth_policy "/api/v0.1/human/user/read/" statuses401Then200).1
      (by decide)).2.2.2.2 (by decide)
  · exact ((request_reauth_policy "/api/v0.1/human/user/read/" statuses401Then403).1
      (by decide)).2.2.1 (by decide)
  · exact ((request_reauth_policy "/api/v0.1/human/user/read/" statusesAll404).2
      (by decide)).1
  · exact ((request_reauth_policy "/api/v0.1/human/user/read/" statusesAll404).2
      (by decide)).2.2.1 (by decide)

end Watts
